import Mathlib

/-!
Verification development for the SAVI database schema repository.

The repository holds two revisions of an object-relational schema for a
linguistic-annotation platform: `originl_model.py` (the "original" schema)
and `optimized_model.py` (the "optimized" schema).  Both declare the same
entity hierarchy (User, Project → Chapter → Sentence → Segment → USR →
five annotation-fragment tables, plus Assignment, Concept/ConceptSubmission,
TAM_Dictionary/TAM_Submission, SegmentFeedback) together with foreign keys,
SQLAlchemy relationship cascades and two password helper methods.

This file gives a shallow embedding of both schema revisions:
* row types mirroring each table's columns (nullable columns become `Option`);
* a relational database state holding one list of rows per table;
* insert operations guarded by the declared foreign keys, and delete
  operations implementing the declared `all, delete-orphan` cascades, with
  deletion refused (`none`) whenever a surviving row would still reference a
  deleted one — the behaviour the declared constraints force on the backing
  database (a child relationship without a delete cascade makes the parent
  delete fail and roll back);
* column-level metadata (name, SQL type, nullability) for both revisions;
* the `set_password` / `check_password` helpers, parametric in the external
  hashing collaborator (werkzeug), whose contract is taken as hypotheses.
-/

/-! ## Enumerations of the optimized schema (`optimized_model.py`, lines 7–44) -/

/-- Enum `UserRoleEnum` of the optimized schema. -/
inductive UserRoleEnum where
| pending
| annotator
| reviewer
| admin
deriving DecidableEq

/-- Enum `UserStatusEnum` of the optimized schema. -/
inductive UserStatusEnum where
| pending
| active
| disabled
deriving DecidableEq

/-- Enum `USRStatusEnum` of the optimized schema. -/
inductive USRStatusEnum where
| Pending
| Completed
| Reviewed
deriving DecidableEq

/-- Enum `AnnotationStatusEnum` of the optimized schema. -/
inductive AnnotationStatusEnum where
| Unassigned
| Assigned
| InProgress
| Submitted
| Reviewed
deriving DecidableEq

/-- Enum `ValidationStatusEnum` of the optimized schema. -/
inductive ValidationStatusEnum where
| pending
| approved
| rejected
deriving DecidableEq

/-- Enum `FeedbackStatusEnum` of the optimized schema. -/
inductive FeedbackStatusEnum where
| open
| in_progress
| resolved
| closed
deriving DecidableEq

/-- Enum `FeedbackTypeEnum` of the optimized schema. -/
inductive FeedbackTypeEnum where
| issue
| suggestion
| question
deriving DecidableEq

/-- Declared string values of `UserRoleEnum`. -/
def UserRoleEnum.values : List String := ["pending", "annotator", "reviewer", "admin"]

/-- Declared string values of `UserStatusEnum`. -/
def UserStatusEnum.values : List String := ["pending", "active", "disabled"]

/-- Declared string values of `USRStatusEnum`. -/
def USRStatusEnum.values : List String := ["Pending", "Completed", "Reviewed"]

/-- Declared string values of `AnnotationStatusEnum`. -/
def AnnotationStatusEnum.values : List String :=
  ["Unassigned", "Assigned", "InProgress", "Submitted", "Reviewed"]

/-- Declared string values of `ValidationStatusEnum`. -/
def ValidationStatusEnum.values : List String := ["pending", "approved", "rejected"]

/-- Declared string values of `FeedbackStatusEnum`. -/
def FeedbackStatusEnum.values : List String := ["open", "in_progress", "resolved", "closed"]

/-- Declared string values of `FeedbackTypeEnum`. -/
def FeedbackTypeEnum.values : List String := ["issue", "suggestion", "question"]

/-- Binding a string to the `UserRoleEnum` column: SQLAlchemy's `Enum` type
accepts exactly the declared member values and raises on anything else. -/
def UserRoleEnum.ofString (v : String) : Option UserRoleEnum :=
  if v = "pending" then some .pending
  else if v = "annotator" then some .annotator
  else if v = "reviewer" then some .reviewer
  else if v = "admin" then some .admin
  else none

/-- Binding a string to the `UserStatusEnum` column. -/
def UserStatusEnum.ofString (v : String) : Option UserStatusEnum :=
  if v = "pending" then some .pending
  else if v = "active" then some .active
  else if v = "disabled" then some .disabled
  else none

/-- Binding a string to the `USRStatusEnum` column. -/
def USRStatusEnum.ofString (v : String) : Option USRStatusEnum :=
  if v = "Pending" then some .Pending
  else if v = "Completed" then some .Completed
  else if v = "Reviewed" then some .Reviewed
  else none

/-- Binding a string to the `AnnotationStatusEnum` column. -/
def AnnotationStatusEnum.ofString (v : String) : Option AnnotationStatusEnum :=
  if v = "Unassigned" then some .Unassigned
  else if v = "Assigned" then some .Assigned
  else if v = "InProgress" then some .InProgress
  else if v = "Submitted" then some .Submitted
  else if v = "Reviewed" then some .Reviewed
  else none

/-- Binding a string to the `ValidationStatusEnum` column. -/
def ValidationStatusEnum.ofString (v : String) : Option ValidationStatusEnum :=
  if v = "pending" then some .pending
  else if v = "approved" then some .approved
  else if v = "rejected" then some .rejected
  else none

/-- Binding a string to the `FeedbackStatusEnum` column. -/
def FeedbackStatusEnum.ofString (v : String) : Option FeedbackStatusEnum :=
  if v = "open" then some .open
  else if v = "in_progress" then some .in_progress
  else if v = "resolved" then some .resolved
  else if v = "closed" then some .closed
  else none

/-- Binding a string to the `FeedbackTypeEnum` column. -/
def FeedbackTypeEnum.ofString (v : String) : Option FeedbackTypeEnum :=
  if v = "issue" then some .issue
  else if v = "suggestion" then some .suggestion
  else if v = "question" then some .question
  else none

namespace Orig

/-! ## Row types of the original schema (`originl_model.py`)

Column types are embedded as: `Integer` primary keys and foreign keys as
`Nat`, other `Integer` columns as `Int`, `String(n)`/`Text` as `String`,
`Boolean` as `Bool`, `DateTime` as `Nat`, `ARRAY(String)` as `List String`;
a column that is nullable (SQLAlchemy's default for a non-primary-key column
without `nullable=False`) becomes an `Option`. -/

/-- Table `user` of the original schema (lines 5–43). -/
structure User where
  id : Nat
  name : String
  email : String
  password_hash : String
  role : String
  languages : List String
  organization : Option String
  status : Option String
  otp : Option String
  otp_expiration : Option Nat
  created_at : Option Nat
  updated_at : Option Nat
deriving DecidableEq

/-- Method `User.set_password` (line 39): stores the werkzeug hash of the raw
password into `password_hash` and touches nothing else.  `gen` stands for
`werkzeug.security.generate_password_hash`, with the salt the library draws
internally made an explicit argument. -/
def User.set_password (gen : String → String → String) (salt : String)
    (password : String) (u : User) : User :=
  { u with password_hash := gen salt password }

/-- Method `User.check_password` (line 42): delegates to
`werkzeug.security.check_password_hash` (`chk`) on the stored hash. -/
def User.check_password (chk : String → String → Bool) (password : String)
    (u : User) : Bool :=
  chk u.password_hash password

/-- Reapplies `set_password` for a whole list of calls, in order; models a
sequence of password changes on one user. -/
def User.apply_passwords (gen : String → String → String) (u : User)
    (calls : List (String × String)) : User :=
  calls.foldl (fun w sp => w.set_password gen sp.1 sp.2) u

/-- Table `project` (lines 50–69). -/
structure Project where
  id : Nat
  title : String
  description : Option String
  language : String
  organization : Option String
  created_at : Option Nat
  updated_at : Option Nat
deriving DecidableEq

/-- Table `chapter` (lines 72–92). -/
structure Chapter where
  id : Nat
  project_id : Nat
  title : String
  language : String
  chapter_text : Option String
  created_at : Option Nat
  updated_at : Option Nat
deriving DecidableEq

/-- Table `sentence` (lines 94–114).  `sentence_id` is a free-text label,
not a foreign key. -/
structure Sentence where
  id : Nat
  chapter_id : Nat
  text : String
  sentence_id : Option String
  language : String
  created_at : Option Nat
  updated_at : Option Nat
deriving DecidableEq

/-- Table `segment` (lines 117–153).  Here `sentence_id` is the foreign key
to `sentence.id` and `segment_id` is a free-text label. -/
structure Segment where
  id : Nat
  sentence_id : Nat
  text : String
  wxtext : Option String
  englishtext : Option String
  is_annotated : Option Bool
  segment_id : Option String
  language : String
  created_at : Option Nat
  updated_at : Option Nat
deriving DecidableEq

/-- Table `usr` (lines 156–176). -/
structure USR where
  id : Nat
  segment_id : Nat
  status : Option String
  sentence_type : Option String
  language : String
  created_by : Option Nat
  created_at : Option Nat
  updated_at : Option Nat
deriving DecidableEq

/-- Table `lexical_info` (lines 179–192): references both its USR and,
redundantly, a segment. -/
structure LexicalInfo where
  id : Nat
  usr_id : Nat
  segment_id : Nat
  concept : String
  index : Int
  semantic_category : Option String
  morpho_semantic : Option String
  speakers_view : Option String
deriving DecidableEq

/-- Table `dependency_info` (lines 195–207). -/
structure DependencyInfo where
  id : Nat
  usr_id : Nat
  segment_id : Nat
  concept : String
  index : Int
  head_index : Option String
  relation : String
deriving DecidableEq

/-- Table `discourse_coref_info` (lines 210–222). -/
structure DiscourseCorefInfo where
  id : Nat
  usr_id : Nat
  segment_id : Nat
  concept : String
  index : Int
  head_index : Option String
  relation : String
deriving DecidableEq

/-- Table `construction_info` (lines 225–237). -/
structure ConstructionInfo where
  id : Nat
  usr_id : Nat
  segment_id : Nat
  concept : String
  index : Int
  cxn_index : Option String
  component_type : String
deriving DecidableEq

/-- Table `sentence_type_info` (lines 240–250). -/
structure SentenceTypeInfo where
  id : Nat
  usr_id : Nat
  sentence_type : String
  scope : Option String
  segment_id : Nat
deriving DecidableEq

/-- Table `assignment` (lines 254–273). -/
structure Assignment where
  id : Nat
  segment_id : Nat
  annotator_id : Nat
  reviewer_id : Option Nat
  feedback : Option String
  annotation_status : Option String
  assign_lexical : Option Bool
  assign_construction : Option Bool
  assign_dependency : Option Bool
  assign_discourse : Option Bool
  created_at : Option Nat
  updated_at : Option Nat
deriving DecidableEq

/-- Table `concept` (lines 277–288): no foreign keys. -/
structure Concept where
  id : Nat
  concept_label : String
  hindi_label : Option String
  sanskrit_label : Option String
  english_label : Option String
  mrsc : Option String
  created_at : Option Nat
  updated_at : Option Nat
deriving DecidableEq

/-- Table `concept_submission` (lines 292–319).  `segment_id` here is a
free-text identifier, not a foreign key. -/
structure ConceptSubmission where
  id : Nat
  concept_label : String
  hindi_label : String
  sanskrit_label : Option String
  english_label : Option String
  mrsc : Option String
  segment_id : Option String
  original_text : Option String
  wx_text : Option String
  english_text : Option String
  concept_index : Option Int
  validation_status : Option String
  submitted_by : Option Nat
  validated_by : Option Nat
  feedback : Option String
  created_at : Option Nat
  updated_at : Option Nat
deriving DecidableEq

/-- Table `tam_dictionary` (lines 322–334): no foreign keys. -/
structure TAM_Dictionary where
  id : Nat
  u_tam : String
  hindi_tam : String
  sanskrit_tam : Option String
  english_tam : String
  created_at : Option Nat
  updated_at : Option Nat
deriving DecidableEq

/-- Table `tam_submission` (lines 340–364). -/
structure TAM_Submission where
  id : Nat
  u_tam : String
  hindi_tam : String
  sanskrit_tam : Option String
  english_tam : String
  segment_id : Option String
  original_text : Option String
  wx_text : Option String
  english_text : Option String
  validation_status : Option String
  submitted_by : Option Nat
  validated_by : Option Nat
  feedback : Option String
  created_at : Option Nat
  updated_at : Option Nat
deriving DecidableEq

/-- Table `segment_feedback` (lines 370–387). -/
structure SegmentFeedback where
  id : Nat
  segment_id : Nat
  annotator_id : Nat
  feedback_type : String
  feedback_text : String
  status : Option String
  created_at : Option Nat
  updated_at : Option Nat
deriving DecidableEq

/-- Database state of the original schema: one list of rows per table. -/
structure DB where
  users : List User
  projects : List Project
  chapters : List Chapter
  sentences : List Sentence
  segments : List Segment
  usrs : List USR
  lexical_infos : List LexicalInfo
  dependency_infos : List DependencyInfo
  discourse_coref_infos : List DiscourseCorefInfo
  construction_infos : List ConstructionInfo
  sentence_type_infos : List SentenceTypeInfo
  assignments : List Assignment
  concepts : List Concept
  concept_submissions : List ConceptSubmission
  tam_dictionaries : List TAM_Dictionary
  tam_submissions : List TAM_Submission
  segment_feedbacks : List SegmentFeedback
deriving DecidableEq

/-- Empty database: the state right after `create_all`. -/
def emptyDB : DB :=
  ⟨[], [], [], [], [], [], [], [], [], [], [], [], [], [], [], [], []⟩

/-- Referential integrity as the original schema declares it: every foreign
key of every row names an existing parent row (nullable foreign keys only
when set).  This is exactly the set of `db.ForeignKey` declarations of
`originl_model.py`. -/
def wellFormed (db : DB) : Prop :=
  (∀ c ∈ db.chapters, ∃ p ∈ db.projects, p.id = c.project_id) ∧
  (∀ s ∈ db.sentences, ∃ c ∈ db.chapters, c.id = s.chapter_id) ∧
  (∀ g ∈ db.segments, ∃ s ∈ db.sentences, s.id = g.sentence_id) ∧
  (∀ u ∈ db.usrs, (∃ g ∈ db.segments, g.id = u.segment_id) ∧
    ∀ i ∈ u.created_by.toList, ∃ w ∈ db.users, w.id = i) ∧
  (∀ x ∈ db.lexical_infos, (∃ u ∈ db.usrs, u.id = x.usr_id) ∧
    ∃ g ∈ db.segments, g.id = x.segment_id) ∧
  (∀ x ∈ db.dependency_infos, (∃ u ∈ db.usrs, u.id = x.usr_id) ∧
    ∃ g ∈ db.segments, g.id = x.segment_id) ∧
  (∀ x ∈ db.discourse_coref_infos, (∃ u ∈ db.usrs, u.id = x.usr_id) ∧
    ∃ g ∈ db.segments, g.id = x.segment_id) ∧
  (∀ x ∈ db.construction_infos, (∃ u ∈ db.usrs, u.id = x.usr_id) ∧
    ∃ g ∈ db.segments, g.id = x.segment_id) ∧
  (∀ x ∈ db.sentence_type_infos, (∃ u ∈ db.usrs, u.id = x.usr_id) ∧
    ∃ g ∈ db.segments, g.id = x.segment_id) ∧
  (∀ a ∈ db.assignments, (∃ g ∈ db.segments, g.id = a.segment_id) ∧
    (∃ w ∈ db.users, w.id = a.annotator_id) ∧
    ∀ i ∈ a.reviewer_id.toList, ∃ w ∈ db.users, w.id = i) ∧
  (∀ cs ∈ db.concept_submissions,
    (∀ i ∈ cs.submitted_by.toList, ∃ w ∈ db.users, w.id = i) ∧
    ∀ i ∈ cs.validated_by.toList, ∃ w ∈ db.users, w.id = i) ∧
  (∀ ts ∈ db.tam_submissions,
    (∀ i ∈ ts.submitted_by.toList, ∃ w ∈ db.users, w.id = i) ∧
    ∀ i ∈ ts.validated_by.toList, ∃ w ∈ db.users, w.id = i) ∧
  (∀ f ∈ db.segment_feedbacks, (∃ g ∈ db.segments, g.id = f.segment_id) ∧
    ∃ w ∈ db.users, w.id = f.annotator_id)

instance wellFormedDec (db : DB) : Decidable (wellFormed db) := by
  unfold wellFormed
  infer_instance

/-! ### Delete operations

Deleting a row follows the declared relationship cascades: every
`cascade='all, delete-orphan'` collection is deleted with its parent
(`Project.chapters`, `Chapter.sentences`, `Sentence.segments`,
`Segment.usrs`, `Segment.assignments`, `Segment.sentence_type_info`,
`USR.lexical_info` … `USR.sentence_type_info`, `User.annotator_assignments`,
`User.reviewer_assignments`).  A child relationship **without** a delete
cascade (`SegmentFeedback.segment`, the four `Info.segment` links,
`SegmentFeedback.annotator`, `USR.created_by`, the submissions'
`submitted_by`/`validated_by`) leaves its rows behind, so when such a row
still references a deleted parent the flush violates the foreign-key /
not-null constraints, the transaction rolls back and the state is unchanged:
the operation returns `none`. -/

/-- Root rows targeted by a delete in the containment hierarchy: projects
matching `pP`, chapters matching `pC`, sentences matching `pS` and segments
matching `pG`. -/
structure DelSpec where
  pP : Project → Bool
  pC : Chapter → Bool
  pS : Sentence → Bool
  pG : Segment → Bool

/-- Chapter removed by `d`: targeted directly or child of a removed
project (`Project.chapters` carries `all, delete-orphan`). -/
def chGoneB (db : DB) (d : DelSpec) (c : Chapter) : Bool :=
  d.pC c || (db.projects.filter d.pP).any (fun p => p.id == c.project_id)

/-- Sentence removed by `d` (`Chapter.sentences` cascade). -/
def senGoneB (db : DB) (d : DelSpec) (s : Sentence) : Bool :=
  d.pS s || (db.chapters.filter (chGoneB db d)).any (fun c => c.id == s.chapter_id)

/-- Segment removed by `d` (`Sentence.segments` cascade). -/
def segGoneB (db : DB) (d : DelSpec) (g : Segment) : Bool :=
  d.pG g || (db.sentences.filter (senGoneB db d)).any (fun s => s.id == g.sentence_id)

/-- Segment id belonging to a removed segment. -/
def segIdGoneB (db : DB) (d : DelSpec) (i : Nat) : Bool :=
  (db.segments.filter (segGoneB db d)).any (fun g => g.id == i)

/-- USR removed by `d` (`Segment.usrs` cascade). -/
def usrGoneB (db : DB) (d : DelSpec) (u : USR) : Bool :=
  segIdGoneB db d u.segment_id

/-- USR id belonging to a removed USR. -/
def usrIdGoneB (db : DB) (d : DelSpec) (i : Nat) : Bool :=
  (db.usrs.filter (usrGoneB db d)).any (fun u => u.id == i)

/-- Delete blocked: a surviving annotation-fragment row (whose `segment`
relationship has no delete cascade) or any `SegmentFeedback` row still
references a removed segment, so the flush hits a constraint violation. -/
def hierBlocked (db : DB) (d : DelSpec) : Bool :=
  db.lexical_infos.any
    (fun x => !usrIdGoneB db d x.usr_id && segIdGoneB db d x.segment_id) ||
  db.dependency_infos.any
    (fun x => !usrIdGoneB db d x.usr_id && segIdGoneB db d x.segment_id) ||
  db.discourse_coref_infos.any
    (fun x => !usrIdGoneB db d x.usr_id && segIdGoneB db d x.segment_id) ||
  db.construction_infos.any
    (fun x => !usrIdGoneB db d x.usr_id && segIdGoneB db d x.segment_id) ||
  db.segment_feedbacks.any (fun f => segIdGoneB db d f.segment_id)

/-- Core of the containment-hierarchy deletes: removes the targeted rows and
cascades down through sentences, segments, USRs, annotation fragments and
assignments exactly along the declared cascade relationships; refuses
(`none`) when blocked. -/
def removeHier (db : DB) (d : DelSpec) : Option DB :=
  if hierBlocked db d then none else
  some { db with
    projects := db.projects.filter (fun p => !d.pP p)
    chapters := db.chapters.filter (fun c => !chGoneB db d c)
    sentences := db.sentences.filter (fun s => !senGoneB db d s)
    segments := db.segments.filter (fun g => !segGoneB db d g)
    usrs := db.usrs.filter (fun u => !usrGoneB db d u)
    lexical_infos := db.lexical_infos.filter (fun x => !usrIdGoneB db d x.usr_id)
    dependency_infos := db.dependency_infos.filter (fun x => !usrIdGoneB db d x.usr_id)
    discourse_coref_infos :=
      db.discourse_coref_infos.filter (fun x => !usrIdGoneB db d x.usr_id)
    construction_infos := db.construction_infos.filter (fun x => !usrIdGoneB db d x.usr_id)
    sentence_type_infos := db.sentence_type_infos.filter
      (fun x => !(usrIdGoneB db d x.usr_id || segIdGoneB db d x.segment_id))
    assignments := db.assignments.filter (fun a => !segIdGoneB db d a.segment_id) }

/-- Deleting the project row with id `pid`: cascades through
`Project.chapters` and on down the hierarchy. -/
def deleteProject (db : DB) (pid : Nat) : Option DB :=
  removeHier db
    ⟨fun p => p.id == pid, fun c => c.project_id == pid, fun _ => false, fun _ => false⟩

/-- Deleting the chapter row with id `cid`. -/
def deleteChapter (db : DB) (cid : Nat) : Option DB :=
  removeHier db
    ⟨fun _ => false, fun c => c.id == cid, fun s => s.chapter_id == cid, fun _ => false⟩

/-- Deleting the sentence row with id `sid`. -/
def deleteSentence (db : DB) (sid : Nat) : Option DB :=
  removeHier db
    ⟨fun _ => false, fun _ => false, fun s => s.id == sid, fun g => g.sentence_id == sid⟩

/-- Deleting the segment row with id `gid`: cascades to its USRs (and with
them the annotation fragments), its assignments and its sentence-type rows,
but not to `SegmentFeedback`. -/
def deleteSegment (db : DB) (gid : Nat) : Option DB :=
  removeHier db
    ⟨fun _ => false, fun _ => false, fun _ => false, fun g => g.id == gid⟩

/-- Deleting the user row with id `uid`: `User.annotator_assignments` and
`User.reviewer_assignments` both carry `all, delete-orphan`, so every
assignment naming the user as annotator or reviewer goes with it; a USR,
submission or feedback row still naming the user has no cascade and blocks
the delete. -/
def deleteUser (db : DB) (uid : Nat) : Option DB :=
  let aGone : Assignment → Bool :=
    fun a => a.annotator_id == uid || a.reviewer_id == some uid
  let blocked :=
    db.usrs.any (fun u => u.created_by == some uid) ||
    db.concept_submissions.any
      (fun cs => cs.submitted_by == some uid || cs.validated_by == some uid) ||
    db.tam_submissions.any
      (fun ts => ts.submitted_by == some uid || ts.validated_by == some uid) ||
    db.segment_feedbacks.any (fun f => f.annotator_id == uid)
  if blocked then none else
  some { db with
    users := db.users.filter (fun w => !(w.id == uid))
    assignments := db.assignments.filter (fun a => !aGone a) }

/-- Deleting the USR row with id `uid`: cascades to all five annotation
fragment tables through the `USR.*_info` relationships. -/
def deleteUSR (db : DB) (uid : Nat) : Option DB :=
  some { db with
    usrs := db.usrs.filter (fun u => !(u.id == uid))
    lexical_infos := db.lexical_infos.filter (fun x => !(x.usr_id == uid))
    dependency_infos := db.dependency_infos.filter (fun x => !(x.usr_id == uid))
    discourse_coref_infos := db.discourse_coref_infos.filter (fun x => !(x.usr_id == uid))
    construction_infos := db.construction_infos.filter (fun x => !(x.usr_id == uid))
    sentence_type_infos := db.sentence_type_infos.filter (fun x => !(x.usr_id == uid)) }

/-- Deleting an assignment row: nothing references assignments. -/
def deleteAssignment (db : DB) (aid : Nat) : Option DB :=
  some { db with assignments := db.assignments.filter (fun a => !(a.id == aid)) }

/-- Deleting a segment-feedback row: nothing references it. -/
def deleteSegmentFeedback (db : DB) (fid : Nat) : Option DB :=
  some { db with
    segment_feedbacks := db.segment_feedbacks.filter (fun f => !(f.id == fid)) }

/-- Deleting a concept-submission row: nothing references it. -/
def deleteConceptSubmission (db : DB) (cid : Nat) : Option DB :=
  some { db with
    concept_submissions := db.concept_submissions.filter (fun c => !(c.id == cid)) }

/-- Deleting a TAM-submission row: nothing references it. -/
def deleteTamSubmission (db : DB) (tid : Nat) : Option DB :=
  some { db with
    tam_submissions := db.tam_submissions.filter (fun t => !(t.id == tid)) }

/-! ### Insert operations

An insert succeeds when every declared foreign key of the new row names an
existing parent row; otherwise the constraint violation makes it fail with
the state unchanged. -/

/-- Inserting a user row: the table has no foreign keys. -/
def insertUser (db : DB) (w : User) : Option DB :=
  some { db with users := w :: db.users }

/-- Inserting a project row: no foreign keys. -/
def insertProject (db : DB) (p : Project) : Option DB :=
  some { db with projects := p :: db.projects }

/-- Inserting a chapter row: `project_id` must name a project. -/
def insertChapter (db : DB) (c : Chapter) : Option DB :=
  if ∃ p ∈ db.projects, p.id = c.project_id then
    some { db with chapters := c :: db.chapters }
  else none

/-- Inserting a sentence row: `chapter_id` must name a chapter. -/
def insertSentence (db : DB) (s : Sentence) : Option DB :=
  if ∃ c ∈ db.chapters, c.id = s.chapter_id then
    some { db with sentences := s :: db.sentences }
  else none

/-- Inserting a segment row: `sentence_id` must name a sentence. -/
def insertSegment (db : DB) (g : Segment) : Option DB :=
  if ∃ s ∈ db.sentences, s.id = g.sentence_id then
    some { db with segments := g :: db.segments }
  else none

/-- Inserting a USR row: `segment_id` must name a segment and `created_by`,
when set, a user. -/
def insertUSR (db : DB) (u : USR) : Option DB :=
  if (∃ g ∈ db.segments, g.id = u.segment_id) ∧
      ∀ i ∈ u.created_by.toList, ∃ w ∈ db.users, w.id = i then
    some { db with usrs := u :: db.usrs }
  else none

/-- Inserting a lexical-info row: `usr_id` must name a USR and `segment_id`
a segment. -/
def insertLexicalInfo (db : DB) (x : LexicalInfo) : Option DB :=
  if (∃ u ∈ db.usrs, u.id = x.usr_id) ∧ ∃ g ∈ db.segments, g.id = x.segment_id then
    some { db with lexical_infos := x :: db.lexical_infos }
  else none

/-- Inserting a dependency-info row. -/
def insertDependencyInfo (db : DB) (x : DependencyInfo) : Option DB :=
  if (∃ u ∈ db.usrs, u.id = x.usr_id) ∧ ∃ g ∈ db.segments, g.id = x.segment_id then
    some { db with dependency_infos := x :: db.dependency_infos }
  else none

/-- Inserting a discourse-coref-info row. -/
def insertDiscourseCorefInfo (db : DB) (x : DiscourseCorefInfo) : Option DB :=
  if (∃ u ∈ db.usrs, u.id = x.usr_id) ∧ ∃ g ∈ db.segments, g.id = x.segment_id then
    some { db with discourse_coref_infos := x :: db.discourse_coref_infos }
  else none

/-- Inserting a construction-info row. -/
def insertConstructionInfo (db : DB) (x : ConstructionInfo) : Option DB :=
  if (∃ u ∈ db.usrs, u.id = x.usr_id) ∧ ∃ g ∈ db.segments, g.id = x.segment_id then
    some { db with construction_infos := x :: db.construction_infos }
  else none

/-- Inserting a sentence-type-info row. -/
def insertSentenceTypeInfo (db : DB) (x : SentenceTypeInfo) : Option DB :=
  if (∃ u ∈ db.usrs, u.id = x.usr_id) ∧ ∃ g ∈ db.segments, g.id = x.segment_id then
    some { db with sentence_type_infos := x :: db.sentence_type_infos }
  else none

/-- Inserting an assignment row: `segment_id` names a segment,
`annotator_id` a user and `reviewer_id`, when set, a user. -/
def insertAssignment (db : DB) (a : Assignment) : Option DB :=
  if (∃ g ∈ db.segments, g.id = a.segment_id) ∧
      (∃ w ∈ db.users, w.id = a.annotator_id) ∧
      ∀ i ∈ a.reviewer_id.toList, ∃ w ∈ db.users, w.id = i then
    some { db with assignments := a :: db.assignments }
  else none

/-- Inserting a concept row: no foreign keys. -/
def insertConcept (db : DB) (c : Concept) : Option DB :=
  some { db with concepts := c :: db.concepts }

/-- Inserting a concept-submission row: `submitted_by` and `validated_by`,
when set, must name users. -/
def insertConceptSubmission (db : DB) (cs : ConceptSubmission) : Option DB :=
  if (∀ i ∈ cs.submitted_by.toList, ∃ w ∈ db.users, w.id = i) ∧
      ∀ i ∈ cs.validated_by.toList, ∃ w ∈ db.users, w.id = i then
    some { db with concept_submissions := cs :: db.concept_submissions }
  else none

/-- Inserting a TAM-dictionary row: no foreign keys. -/
def insertTamDictionary (db : DB) (t : TAM_Dictionary) : Option DB :=
  some { db with tam_dictionaries := t :: db.tam_dictionaries }

/-- Inserting a TAM-submission row. -/
def insertTamSubmission (db : DB) (ts : TAM_Submission) : Option DB :=
  if (∀ i ∈ ts.submitted_by.toList, ∃ w ∈ db.users, w.id = i) ∧
      ∀ i ∈ ts.validated_by.toList, ∃ w ∈ db.users, w.id = i then
    some { db with tam_submissions := ts :: db.tam_submissions }
  else none

/-- Inserting a segment-feedback row: `segment_id` names a segment and
`annotator_id` a user. -/
def insertSegmentFeedback (db : DB) (f : SegmentFeedback) : Option DB :=
  if (∃ g ∈ db.segments, g.id = f.segment_id) ∧
      ∃ w ∈ db.users, w.id = f.annotator_id then
    some { db with segment_feedbacks := f :: db.segment_feedbacks }
  else none

/-- One schema operation on the original schema: an insert of a row into any
table, or a delete of a row by primary key. -/
inductive Op where
| insUser (w : User)
| insProject (p : Project)
| insChapter (c : Chapter)
| insSentence (s : Sentence)
| insSegment (g : Segment)
| insUSR (u : USR)
| insLexicalInfo (x : LexicalInfo)
| insDependencyInfo (x : DependencyInfo)
| insDiscourseCorefInfo (x : DiscourseCorefInfo)
| insConstructionInfo (x : ConstructionInfo)
| insSentenceTypeInfo (x : SentenceTypeInfo)
| insAssignment (a : Assignment)
| insConcept (c : Concept)
| insConceptSubmission (cs : ConceptSubmission)
| insTamDictionary (t : TAM_Dictionary)
| insTamSubmission (ts : TAM_Submission)
| insSegmentFeedback (f : SegmentFeedback)
| delProject (pid : Nat)
| delChapter (cid : Nat)
| delSentence (sid : Nat)
| delSegment (gid : Nat)
| delUser (uid : Nat)
| delUSR (uid : Nat)
| delAssignment (aid : Nat)
| delSegmentFeedback (fid : Nat)
| delConceptSubmission (cid : Nat)
| delTamSubmission (tid : Nat)
deriving DecidableEq

/-- Semantics of one operation. -/
def apply (db : DB) : Op → Option DB
| .insUser w => insertUser db w
| .insProject p => insertProject db p
| .insChapter c => insertChapter db c
| .insSentence s => insertSentence db s
| .insSegment g => insertSegment db g
| .insUSR u => insertUSR db u
| .insLexicalInfo x => insertLexicalInfo db x
| .insDependencyInfo x => insertDependencyInfo db x
| .insDiscourseCorefInfo x => insertDiscourseCorefInfo db x
| .insConstructionInfo x => insertConstructionInfo db x
| .insSentenceTypeInfo x => insertSentenceTypeInfo db x
| .insAssignment a => insertAssignment db a
| .insConcept c => insertConcept db c
| .insConceptSubmission cs => insertConceptSubmission db cs
| .insTamDictionary t => insertTamDictionary db t
| .insTamSubmission ts => insertTamSubmission db ts
| .insSegmentFeedback f => insertSegmentFeedback db f
| .delProject pid => deleteProject db pid
| .delChapter cid => deleteChapter db cid
| .delSentence sid => deleteSentence db sid
| .delSegment gid => deleteSegment db gid
| .delUser uid => deleteUser db uid
| .delUSR uid => deleteUSR db uid
| .delAssignment aid => deleteAssignment db aid
| .delSegmentFeedback fid => deleteSegmentFeedback db fid
| .delConceptSubmission cid => deleteConceptSubmission db cid
| .delTamSubmission tid => deleteTamSubmission db tid

/-- Runs a list of operations from a state; a failed operation aborts. -/
def run (db : DB) : List Op → Option DB
| [] => some db
| o :: os =>
  match apply db o with
  | none => none
  | some db' => run db' os

/-- States reachable from the empty database by schema operations. -/
def Reachable (db : DB) : Prop :=
  ∃ ops : List Op, run emptyDB ops = some db

end Orig

namespace Opt

/-! ## Row types of the optimized schema (`optimized_model.py`)

Same embedding conventions as for the original schema; the status columns
now carry the native enum types and the five annotation-fragment tables have
lost their redundant `segment_id` column and `segment` relationship. -/

/-- Table `user` of the optimized schema (lines 46–79): `role` and `status`
are native enums, `password_hash` is widened to `String(256)`. -/
structure User where
  id : Nat
  name : String
  email : String
  password_hash : String
  role : UserRoleEnum
  languages : List String
  organization : Option String
  status : Option UserStatusEnum
  otp : Option String
  otp_expiration : Option Nat
  created_at : Option Nat
  updated_at : Option Nat
deriving DecidableEq

/-- Method `User.set_password` (line 75): identical to the original. -/
def User.set_password (gen : String → String → String) (salt : String)
    (password : String) (u : User) : User :=
  { u with password_hash := gen salt password }

/-- Method `User.check_password` (line 78): identical to the original. -/
def User.check_password (chk : String → String → Bool) (password : String)
    (u : User) : Bool :=
  chk u.password_hash password

/-- Reapplies `set_password` for a whole list of calls, in order. -/
def User.apply_passwords (gen : String → String → String) (u : User)
    (calls : List (String × String)) : User :=
  calls.foldl (fun w sp => w.set_password gen sp.1 sp.2) u

/-- Table `project` (lines 81–90). -/
structure Project where
  id : Nat
  title : String
  description : Option String
  language : String
  organization : Option String
  created_at : Option Nat
  updated_at : Option Nat
deriving DecidableEq

/-- Table `chapter` (lines 92–103). -/
structure Chapter where
  id : Nat
  project_id : Nat
  title : String
  language : String
  chapter_text : Option String
  created_at : Option Nat
  updated_at : Option Nat
deriving DecidableEq

/-- Table `sentence` (lines 105–117). -/
structure Sentence where
  id : Nat
  chapter_id : Nat
  text : String
  sentence_id : Option String
  language : String
  created_at : Option Nat
  updated_at : Option Nat
deriving DecidableEq

/-- Table `segment` (lines 119–137): the direct `sentence_type_info`
relationship of the original schema is gone. -/
structure Segment where
  id : Nat
  sentence_id : Nat
  text : String
  wxtext : Option String
  englishtext : Option String
  is_annotated : Option Bool
  segment_id : Option String
  language : String
  created_at : Option Nat
  updated_at : Option Nat
deriving DecidableEq

/-- Table `usr` (lines 139–158): `status` is the native `USRStatusEnum`. -/
structure USR where
  id : Nat
  segment_id : Nat
  status : Option USRStatusEnum
  sentence_type : Option String
  language : String
  created_by : Option Nat
  created_at : Option Nat
  updated_at : Option Nat
deriving DecidableEq

/-- Table `lexical_info` (lines 162–171): owned by its USR only. -/
structure LexicalInfo where
  id : Nat
  usr_id : Nat
  concept : String
  index : Int
  semantic_category : Option String
  morpho_semantic : Option String
  speakers_view : Option String
deriving DecidableEq

/-- Table `dependency_info` (lines 173–181). -/
structure DependencyInfo where
  id : Nat
  usr_id : Nat
  concept : String
  index : Int
  head_index : Option String
  relation : String
deriving DecidableEq

/-- Table `discourse_coref_info` (lines 183–191). -/
structure DiscourseCorefInfo where
  id : Nat
  usr_id : Nat
  concept : String
  index : Int
  head_index : Option String
  relation : String
deriving DecidableEq

/-- Table `construction_info` (lines 193–201). -/
structure ConstructionInfo where
  id : Nat
  usr_id : Nat
  concept : String
  index : Int
  cxn_index : Option String
  component_type : String
deriving DecidableEq

/-- Table `sentence_type_info` (lines 203–209). -/
structure SentenceTypeInfo where
  id : Nat
  usr_id : Nat
  sentence_type : String
  scope : Option String
deriving DecidableEq

/-- Table `assignment` (lines 211–229). -/
structure Assignment where
  id : Nat
  segment_id : Nat
  annotator_id : Nat
  reviewer_id : Option Nat
  feedback : Option String
  annotation_status : Option AnnotationStatusEnum
  assign_lexical : Option Bool
  assign_construction : Option Bool
  assign_dependency : Option Bool
  assign_discourse : Option Bool
  created_at : Option Nat
  updated_at : Option Nat
deriving DecidableEq

/-- Table `concept` (lines 231–241). -/
structure Concept where
  id : Nat
  concept_label : String
  hindi_label : Option String
  sanskrit_label : Option String
  english_label : Option String
  mrsc : Option String
  created_at : Option Nat
  updated_at : Option Nat
deriving DecidableEq

/-- Table `concept_submission` (lines 243–264). -/
structure ConceptSubmission where
  id : Nat
  concept_label : String
  hindi_label : String
  sanskrit_label : Option String
  english_label : Option String
  mrsc : Option String
  segment_id : Option String
  original_text : Option String
  wx_text : Option String
  english_text : Option String
  concept_index : Option Int
  validation_status : Option ValidationStatusEnum
  submitted_by : Option Nat
  validated_by : Option Nat
  feedback : Option String
  created_at : Option Nat
  updated_at : Option Nat
deriving DecidableEq

/-- Table `tam_dictionary` (lines 266–276). -/
structure TAM_Dictionary where
  id : Nat
  u_tam : String
  hindi_tam : String
  sanskrit_tam : Option String
  english_tam : String
  created_at : Option Nat
  updated_at : Option Nat
deriving DecidableEq

/-- Table `tam_submission` (lines 278–298). -/
structure TAM_Submission where
  id : Nat
  u_tam : String
  hindi_tam : String
  sanskrit_tam : Option String
  english_tam : String
  segment_id : Option String
  original_text : Option String
  wx_text : Option String
  english_text : Option String
  validation_status : Option ValidationStatusEnum
  submitted_by : Option Nat
  validated_by : Option Nat
  feedback : Option String
  created_at : Option Nat
  updated_at : Option Nat
deriving DecidableEq

/-- Table `segment_feedback` (lines 300–314). -/
structure SegmentFeedback where
  id : Nat
  segment_id : Nat
  annotator_id : Nat
  feedback_type : FeedbackTypeEnum
  feedback_text : String
  status : Option FeedbackStatusEnum
  created_at : Option Nat
  updated_at : Option Nat
deriving DecidableEq

/-- Database state of the optimized schema. -/
structure DB where
  users : List User
  projects : List Project
  chapters : List Chapter
  sentences : List Sentence
  segments : List Segment
  usrs : List USR
  lexical_infos : List LexicalInfo
  dependency_infos : List DependencyInfo
  discourse_coref_infos : List DiscourseCorefInfo
  construction_infos : List ConstructionInfo
  sentence_type_infos : List SentenceTypeInfo
  assignments : List Assignment
  concepts : List Concept
  concept_submissions : List ConceptSubmission
  tam_dictionaries : List TAM_Dictionary
  tam_submissions : List TAM_Submission
  segment_feedbacks : List SegmentFeedback
deriving DecidableEq

/-- Empty database. -/
def emptyDB : DB :=
  ⟨[], [], [], [], [], [], [], [], [], [], [], [], [], [], [], [], []⟩

/-- Referential integrity as the optimized schema declares it: as for the
original schema, minus the fragments' dropped `segment_id` foreign keys. -/
def wellFormed (db : DB) : Prop :=
  (∀ c ∈ db.chapters, ∃ p ∈ db.projects, p.id = c.project_id) ∧
  (∀ s ∈ db.sentences, ∃ c ∈ db.chapters, c.id = s.chapter_id) ∧
  (∀ g ∈ db.segments, ∃ s ∈ db.sentences, s.id = g.sentence_id) ∧
  (∀ u ∈ db.usrs, (∃ g ∈ db.segments, g.id = u.segment_id) ∧
    ∀ i ∈ u.created_by.toList, ∃ w ∈ db.users, w.id = i) ∧
  (∀ x ∈ db.lexical_infos, ∃ u ∈ db.usrs, u.id = x.usr_id) ∧
  (∀ x ∈ db.dependency_infos, ∃ u ∈ db.usrs, u.id = x.usr_id) ∧
  (∀ x ∈ db.discourse_coref_infos, ∃ u ∈ db.usrs, u.id = x.usr_id) ∧
  (∀ x ∈ db.construction_infos, ∃ u ∈ db.usrs, u.id = x.usr_id) ∧
  (∀ x ∈ db.sentence_type_infos, ∃ u ∈ db.usrs, u.id = x.usr_id) ∧
  (∀ a ∈ db.assignments, (∃ g ∈ db.segments, g.id = a.segment_id) ∧
    (∃ w ∈ db.users, w.id = a.annotator_id) ∧
    ∀ i ∈ a.reviewer_id.toList, ∃ w ∈ db.users, w.id = i) ∧
  (∀ cs ∈ db.concept_submissions,
    (∀ i ∈ cs.submitted_by.toList, ∃ w ∈ db.users, w.id = i) ∧
    ∀ i ∈ cs.validated_by.toList, ∃ w ∈ db.users, w.id = i) ∧
  (∀ ts ∈ db.tam_submissions,
    (∀ i ∈ ts.submitted_by.toList, ∃ w ∈ db.users, w.id = i) ∧
    ∀ i ∈ ts.validated_by.toList, ∃ w ∈ db.users, w.id = i) ∧
  (∀ f ∈ db.segment_feedbacks, (∃ g ∈ db.segments, g.id = f.segment_id) ∧
    ∃ w ∈ db.users, w.id = f.annotator_id)

instance wellFormedDec (db : DB) : Decidable (wellFormed db) := by
  unfold wellFormed
  infer_instance

/-- Root rows targeted by a delete in the containment hierarchy. -/
structure DelSpec where
  pP : Project → Bool
  pC : Chapter → Bool
  pS : Sentence → Bool
  pG : Segment → Bool

/-- Chapter removed by `d`. -/
def chGoneB (db : DB) (d : DelSpec) (c : Chapter) : Bool :=
  d.pC c || (db.projects.filter d.pP).any (fun p => p.id == c.project_id)

/-- Sentence removed by `d`. -/
def senGoneB (db : DB) (d : DelSpec) (s : Sentence) : Bool :=
  d.pS s || (db.chapters.filter (chGoneB db d)).any (fun c => c.id == s.chapter_id)

/-- Segment removed by `d`. -/
def segGoneB (db : DB) (d : DelSpec) (g : Segment) : Bool :=
  d.pG g || (db.sentences.filter (senGoneB db d)).any (fun s => s.id == g.sentence_id)

/-- Segment id belonging to a removed segment. -/
def segIdGoneB (db : DB) (d : DelSpec) (i : Nat) : Bool :=
  (db.segments.filter (segGoneB db d)).any (fun g => g.id == i)

/-- USR removed by `d`. -/
def usrGoneB (db : DB) (d : DelSpec) (u : USR) : Bool :=
  segIdGoneB db d u.segment_id

/-- USR id belonging to a removed USR. -/
def usrIdGoneB (db : DB) (d : DelSpec) (i : Nat) : Bool :=
  (db.usrs.filter (usrGoneB db d)).any (fun u => u.id == i)

/-- Delete blocked in the optimized schema: the annotation fragments no
longer reference segments, so only a `SegmentFeedback` row of a removed
segment can block. -/
def hierBlocked (db : DB) (d : DelSpec) : Bool :=
  db.segment_feedbacks.any (fun f => segIdGoneB db d f.segment_id)

/-- Core of the containment-hierarchy deletes in the optimized schema. -/
def removeHier (db : DB) (d : DelSpec) : Option DB :=
  if hierBlocked db d then none else
  some { db with
    projects := db.projects.filter (fun p => !d.pP p)
    chapters := db.chapters.filter (fun c => !chGoneB db d c)
    sentences := db.sentences.filter (fun s => !senGoneB db d s)
    segments := db.segments.filter (fun g => !segGoneB db d g)
    usrs := db.usrs.filter (fun u => !usrGoneB db d u)
    lexical_infos := db.lexical_infos.filter (fun x => !usrIdGoneB db d x.usr_id)
    dependency_infos := db.dependency_infos.filter (fun x => !usrIdGoneB db d x.usr_id)
    discourse_coref_infos :=
      db.discourse_coref_infos.filter (fun x => !usrIdGoneB db d x.usr_id)
    construction_infos := db.construction_infos.filter (fun x => !usrIdGoneB db d x.usr_id)
    sentence_type_infos := db.sentence_type_infos.filter (fun x => !usrIdGoneB db d x.usr_id)
    assignments := db.assignments.filter (fun a => !segIdGoneB db d a.segment_id) }

/-- Deleting the project row with id `pid`. -/
def deleteProject (db : DB) (pid : Nat) : Option DB :=
  removeHier db
    ⟨fun p => p.id == pid, fun c => c.project_id == pid, fun _ => false, fun _ => false⟩

/-- Deleting the chapter row with id `cid`. -/
def deleteChapter (db : DB) (cid : Nat) : Option DB :=
  removeHier db
    ⟨fun _ => false, fun c => c.id == cid, fun s => s.chapter_id == cid, fun _ => false⟩

/-- Deleting the sentence row with id `sid`. -/
def deleteSentence (db : DB) (sid : Nat) : Option DB :=
  removeHier db
    ⟨fun _ => false, fun _ => false, fun s => s.id == sid, fun g => g.sentence_id == sid⟩

/-- Deleting the segment row with id `gid`. -/
def deleteSegment (db : DB) (gid : Nat) : Option DB :=
  removeHier db
    ⟨fun _ => false, fun _ => false, fun _ => false, fun g => g.id == gid⟩

/-- Deleting the user row with id `uid`: as in the original schema. -/
def deleteUser (db : DB) (uid : Nat) : Option DB :=
  let aGone : Assignment → Bool :=
    fun a => a.annotator_id == uid || a.reviewer_id == some uid
  let blocked :=
    db.usrs.any (fun u => u.created_by == some uid) ||
    db.concept_submissions.any
      (fun cs => cs.submitted_by == some uid || cs.validated_by == some uid) ||
    db.tam_submissions.any
      (fun ts => ts.submitted_by == some uid || ts.validated_by == some uid) ||
    db.segment_feedbacks.any (fun f => f.annotator_id == uid)
  if blocked then none else
  some { db with
    users := db.users.filter (fun w => !(w.id == uid))
    assignments := db.assignments.filter (fun a => !aGone a) }

/-- Deleting the USR row with id `uid`. -/
def deleteUSR (db : DB) (uid : Nat) : Option DB :=
  some { db with
    usrs := db.usrs.filter (fun u => !(u.id == uid))
    lexical_infos := db.lexical_infos.filter (fun x => !(x.usr_id == uid))
    dependency_infos := db.dependency_infos.filter (fun x => !(x.usr_id == uid))
    discourse_coref_infos := db.discourse_coref_infos.filter (fun x => !(x.usr_id == uid))
    construction_infos := db.construction_infos.filter (fun x => !(x.usr_id == uid))
    sentence_type_infos := db.sentence_type_infos.filter (fun x => !(x.usr_id == uid)) }

/-- Deleting an assignment row. -/
def deleteAssignment (db : DB) (aid : Nat) : Option DB :=
  some { db with assignments := db.assignments.filter (fun a => !(a.id == aid)) }

/-- Deleting a segment-feedback row. -/
def deleteSegmentFeedback (db : DB) (fid : Nat) : Option DB :=
  some { db with
    segment_feedbacks := db.segment_feedbacks.filter (fun f => !(f.id == fid)) }

/-- Deleting a concept-submission row. -/
def deleteConceptSubmission (db : DB) (cid : Nat) : Option DB :=
  some { db with
    concept_submissions := db.concept_submissions.filter (fun c => !(c.id == cid)) }

/-- Deleting a TAM-submission row. -/
def deleteTamSubmission (db : DB) (tid : Nat) : Option DB :=
  some { db with
    tam_submissions := db.tam_submissions.filter (fun t => !(t.id == tid)) }

/-- Inserting a user row. -/
def insertUser (db : DB) (w : User) : Option DB :=
  some { db with users := w :: db.users }

/-- Inserting a project row. -/
def insertProject (db : DB) (p : Project) : Option DB :=
  some { db with projects := p :: db.projects }

/-- Inserting a chapter row. -/
def insertChapter (db : DB) (c : Chapter) : Option DB :=
  if ∃ p ∈ db.projects, p.id = c.project_id then
    some { db with chapters := c :: db.chapters }
  else none

/-- Inserting a sentence row. -/
def insertSentence (db : DB) (s : Sentence) : Option DB :=
  if ∃ c ∈ db.chapters, c.id = s.chapter_id then
    some { db with sentences := s :: db.sentences }
  else none

/-- Inserting a segment row. -/
def insertSegment (db : DB) (g : Segment) : Option DB :=
  if ∃ s ∈ db.sentences, s.id = g.sentence_id then
    some { db with segments := g :: db.segments }
  else none

/-- Inserting a USR row. -/
def insertUSR (db : DB) (u : USR) : Option DB :=
  if (∃ g ∈ db.segments, g.id = u.segment_id) ∧
      ∀ i ∈ u.created_by.toList, ∃ w ∈ db.users, w.id = i then
    some { db with usrs := u :: db.usrs }
  else none

/-- Inserting a lexical-info row: only `usr_id` is constrained now. -/
def insertLexicalInfo (db : DB) (x : LexicalInfo) : Option DB :=
  if ∃ u ∈ db.usrs, u.id = x.usr_id then
    some { db with lexical_infos := x :: db.lexical_infos }
  else none

/-- Inserting a dependency-info row. -/
def insertDependencyInfo (db : DB) (x : DependencyInfo) : Option DB :=
  if ∃ u ∈ db.usrs, u.id = x.usr_id then
    some { db with dependency_infos := x :: db.dependency_infos }
  else none

/-- Inserting a discourse-coref-info row. -/
def insertDiscourseCorefInfo (db : DB) (x : DiscourseCorefInfo) : Option DB :=
  if ∃ u ∈ db.usrs, u.id = x.usr_id then
    some { db with discourse_coref_infos := x :: db.discourse_coref_infos }
  else none

/-- Inserting a construction-info row. -/
def insertConstructionInfo (db : DB) (x : ConstructionInfo) : Option DB :=
  if ∃ u ∈ db.usrs, u.id = x.usr_id then
    some { db with construction_infos := x :: db.construction_infos }
  else none

/-- Inserting a sentence-type-info row. -/
def insertSentenceTypeInfo (db : DB) (x : SentenceTypeInfo) : Option DB :=
  if ∃ u ∈ db.usrs, u.id = x.usr_id then
    some { db with sentence_type_infos := x :: db.sentence_type_infos }
  else none

/-- Inserting an assignment row. -/
def insertAssignment (db : DB) (a : Assignment) : Option DB :=
  if (∃ g ∈ db.segments, g.id = a.segment_id) ∧
      (∃ w ∈ db.users, w.id = a.annotator_id) ∧
      ∀ i ∈ a.reviewer_id.toList, ∃ w ∈ db.users, w.id = i then
    some { db with assignments := a :: db.assignments }
  else none

/-- Inserting a concept row. -/
def insertConcept (db : DB) (c : Concept) : Option DB :=
  some { db with concepts := c :: db.concepts }

/-- Inserting a concept-submission row. -/
def insertConceptSubmission (db : DB) (cs : ConceptSubmission) : Option DB :=
  if (∀ i ∈ cs.submitted_by.toList, ∃ w ∈ db.users, w.id = i) ∧
      ∀ i ∈ cs.validated_by.toList, ∃ w ∈ db.users, w.id = i then
    some { db with concept_submissions := cs :: db.concept_submissions }
  else none

/-- Inserting a TAM-dictionary row. -/
def insertTamDictionary (db : DB) (t : TAM_Dictionary) : Option DB :=
  some { db with tam_dictionaries := t :: db.tam_dictionaries }

/-- Inserting a TAM-submission row. -/
def insertTamSubmission (db : DB) (ts : TAM_Submission) : Option DB :=
  if (∀ i ∈ ts.submitted_by.toList, ∃ w ∈ db.users, w.id = i) ∧
      ∀ i ∈ ts.validated_by.toList, ∃ w ∈ db.users, w.id = i then
    some { db with tam_submissions := ts :: db.tam_submissions }
  else none

/-- Inserting a segment-feedback row. -/
def insertSegmentFeedback (db : DB) (f : SegmentFeedback) : Option DB :=
  if (∃ g ∈ db.segments, g.id = f.segment_id) ∧
      ∃ w ∈ db.users, w.id = f.annotator_id then
    some { db with segment_feedbacks := f :: db.segment_feedbacks }
  else none

/-- One schema operation on the optimized schema. -/
inductive Op where
| insUser (w : User)
| insProject (p : Project)
| insChapter (c : Chapter)
| insSentence (s : Sentence)
| insSegment (g : Segment)
| insUSR (u : USR)
| insLexicalInfo (x : LexicalInfo)
| insDependencyInfo (x : DependencyInfo)
| insDiscourseCorefInfo (x : DiscourseCorefInfo)
| insConstructionInfo (x : ConstructionInfo)
| insSentenceTypeInfo (x : SentenceTypeInfo)
| insAssignment (a : Assignment)
| insConcept (c : Concept)
| insConceptSubmission (cs : ConceptSubmission)
| insTamDictionary (t : TAM_Dictionary)
| insTamSubmission (ts : TAM_Submission)
| insSegmentFeedback (f : SegmentFeedback)
| delProject (pid : Nat)
| delChapter (cid : Nat)
| delSentence (sid : Nat)
| delSegment (gid : Nat)
| delUser (uid : Nat)
| delUSR (uid : Nat)
| delAssignment (aid : Nat)
| delSegmentFeedback (fid : Nat)
| delConceptSubmission (cid : Nat)
| delTamSubmission (tid : Nat)
deriving DecidableEq

/-- Semantics of one operation. -/
def apply (db : DB) : Op → Option DB
| .insUser w => insertUser db w
| .insProject p => insertProject db p
| .insChapter c => insertChapter db c
| .insSentence s => insertSentence db s
| .insSegment g => insertSegment db g
| .insUSR u => insertUSR db u
| .insLexicalInfo x => insertLexicalInfo db x
| .insDependencyInfo x => insertDependencyInfo db x
| .insDiscourseCorefInfo x => insertDiscourseCorefInfo db x
| .insConstructionInfo x => insertConstructionInfo db x
| .insSentenceTypeInfo x => insertSentenceTypeInfo db x
| .insAssignment a => insertAssignment db a
| .insConcept c => insertConcept db c
| .insConceptSubmission cs => insertConceptSubmission db cs
| .insTamDictionary t => insertTamDictionary db t
| .insTamSubmission ts => insertTamSubmission db ts
| .insSegmentFeedback f => insertSegmentFeedback db f
| .delProject pid => deleteProject db pid
| .delChapter cid => deleteChapter db cid
| .delSentence sid => deleteSentence db sid
| .delSegment gid => deleteSegment db gid
| .delUser uid => deleteUser db uid
| .delUSR uid => deleteUSR db uid
| .delAssignment aid => deleteAssignment db aid
| .delSegmentFeedback fid => deleteSegmentFeedback db fid
| .delConceptSubmission cid => deleteConceptSubmission db cid
| .delTamSubmission tid => deleteTamSubmission db tid

/-- Runs a list of operations from a state; a failed operation aborts. -/
def run (db : DB) : List Op → Option DB
| [] => some db
| o :: os =>
  match apply db o with
  | none => none
  | some db' => run db' os

/-- States reachable from the empty database by schema operations. -/
def Reachable (db : DB) : Prop :=
  ∃ ops : List Op, run emptyDB ops = some db

end Opt

/-! ## Column-level schema metadata

Both model files are pure schema declarations, so the declared columns with
their SQL types and nullability are themselves data worth comparing.  A
column is nullable unless it is a primary key or declares `nullable=False`
(SQLAlchemy's defaulting rule). -/

/-- SQL column types used by the two model files. -/
inductive SqlType where
| integer
| varchar (n : Nat)
| text
| boolean
| datetime
| arrayVarchar (n : Nat)
| enumT (labels : List String)
deriving DecidableEq

/-- One declared column: name, SQL type, nullability. -/
structure Col where
  name : String
  ty : SqlType
  nullable : Bool
deriving DecidableEq

/-- Value-level acceptance of a string write at a column type, as the
SQLAlchemy layer enforces it: a native `Enum` column accepts exactly its
declared member values (binding anything else raises a `LookupError`);
plain string columns accept any value. -/
def writeAccepted : SqlType → String → Bool
| .enumT labels, v => labels.contains v
| _, _ => true

/-- Type of the named column among a table's columns. -/
def colType (cols : List Col) (n : String) : Option SqlType :=
  (cols.find? (fun c => c.name == n)).map Col.ty

/-- Names of a table's columns, in declaration order. -/
def colNames (cols : List Col) : List String := cols.map Col.name

/-- Nullability of a table's columns, in declaration order. -/
def colNullables (cols : List Col) : List Bool := cols.map Col.nullable

/-- Names of the columns whose declared type differs between two versions of
a table with equally named columns, position by position. -/
def typeDiff (a b : List Col) : List String :=
  ((a.zip b).filter (fun cc => cc.1.ty != cc.2.ty)).map (fun cc => cc.1.name)

namespace OrigCols

/-- Columns of `user` in the original schema. -/
def user : List Col :=
  [⟨"id", .integer, false⟩,
   ⟨"name", .varchar 150, false⟩,
   ⟨"email", .varchar 150, false⟩,
   ⟨"password_hash", .varchar 200, false⟩,
   ⟨"role", .varchar 50, false⟩,
   ⟨"languages", .arrayVarchar 50, false⟩,
   ⟨"organization", .varchar 150, true⟩,
   ⟨"status", .varchar 50, true⟩,
   ⟨"otp", .varchar 6, true⟩,
   ⟨"otp_expiration", .datetime, true⟩,
   ⟨"created_at", .datetime, true⟩,
   ⟨"updated_at", .datetime, true⟩]

/-- Columns of `project`. -/
def project : List Col :=
  [⟨"id", .integer, false⟩,
   ⟨"title", .varchar 200, false⟩,
   ⟨"description", .text, true⟩,
   ⟨"language", .varchar 50, false⟩,
   ⟨"organization", .varchar 150, true⟩,
   ⟨"created_at", .datetime, true⟩,
   ⟨"updated_at", .datetime, true⟩]

/-- Columns of `chapter`. -/
def chapter : List Col :=
  [⟨"id", .integer, false⟩,
   ⟨"project_id", .integer, false⟩,
   ⟨"title", .varchar 200, false⟩,
   ⟨"language", .varchar 50, false⟩,
   ⟨"chapter_text", .text, true⟩,
   ⟨"created_at", .datetime, true⟩,
   ⟨"updated_at", .datetime, true⟩]

/-- Columns of `sentence`. -/
def sentence : List Col :=
  [⟨"id", .integer, false⟩,
   ⟨"chapter_id", .integer, false⟩,
   ⟨"text", .text, false⟩,
   ⟨"sentence_id", .varchar 100, true⟩,
   ⟨"language", .varchar 50, false⟩,
   ⟨"created_at", .datetime, true⟩,
   ⟨"updated_at", .datetime, true⟩]

/-- Columns of `segment`. -/
def segment : List Col :=
  [⟨"id", .integer, false⟩,
   ⟨"sentence_id", .integer, false⟩,
   ⟨"text", .text, false⟩,
   ⟨"wxtext", .text, true⟩,
   ⟨"englishtext", .text, true⟩,
   ⟨"is_annotated", .boolean, true⟩,
   ⟨"segment_id", .varchar 100, true⟩,
   ⟨"language", .varchar 50, false⟩,
   ⟨"created_at", .datetime, true⟩,
   ⟨"updated_at", .datetime, true⟩]

/-- Columns of `usr`. -/
def usr : List Col :=
  [⟨"id", .integer, false⟩,
   ⟨"segment_id", .integer, false⟩,
   ⟨"status", .varchar 50, true⟩,
   ⟨"sentence_type", .varchar 100, true⟩,
   ⟨"language", .varchar 50, false⟩,
   ⟨"created_by", .integer, true⟩,
   ⟨"created_at", .datetime, true⟩,
   ⟨"updated_at", .datetime, true⟩]

/-- Columns of `lexical_info`. -/
def lexical_info : List Col :=
  [⟨"id", .integer, false⟩,
   ⟨"usr_id", .integer, false⟩,
   ⟨"segment_id", .integer, false⟩,
   ⟨"concept", .varchar 100, false⟩,
   ⟨"index", .integer, false⟩,
   ⟨"semantic_category", .varchar 100, true⟩,
   ⟨"morpho_semantic", .varchar 100, true⟩,
   ⟨"speakers_view", .varchar 100, true⟩]

/-- Columns of `dependency_info`. -/
def dependency_info : List Col :=
  [⟨"id", .integer, false⟩,
   ⟨"usr_id", .integer, false⟩,
   ⟨"segment_id", .integer, false⟩,
   ⟨"concept", .varchar 100, false⟩,
   ⟨"index", .integer, false⟩,
   ⟨"head_index", .varchar 20, true⟩,
   ⟨"relation", .varchar 100, false⟩]

/-- Columns of `discourse_coref_info`. -/
def discourse_coref_info : List Col :=
  [⟨"id", .integer, false⟩,
   ⟨"usr_id", .integer, false⟩,
   ⟨"segment_id", .integer, false⟩,
   ⟨"concept", .varchar 100, false⟩,
   ⟨"index", .integer, false⟩,
   ⟨"head_index", .varchar 20, true⟩,
   ⟨"relation", .varchar 100, false⟩]

/-- Columns of `construction_info`. -/
def construction_info : List Col :=
  [⟨"id", .integer, false⟩,
   ⟨"usr_id", .integer, false⟩,
   ⟨"segment_id", .integer, false⟩,
   ⟨"concept", .varchar 100, false⟩,
   ⟨"index", .integer, false⟩,
   ⟨"cxn_index", .varchar 20, true⟩,
   ⟨"component_type", .varchar 100, false⟩]

/-- Columns of `sentence_type_info` (here `segment_id` is declared last). -/
def sentence_type_info : List Col :=
  [⟨"id", .integer, false⟩,
   ⟨"usr_id", .integer, false⟩,
   ⟨"sentence_type", .varchar 100, false⟩,
   ⟨"scope", .varchar 100, true⟩,
   ⟨"segment_id", .integer, false⟩]

/-- Columns of `assignment`. -/
def assignment : List Col :=
  [⟨"id", .integer, false⟩,
   ⟨"segment_id", .integer, false⟩,
   ⟨"annotator_id", .integer, false⟩,
   ⟨"reviewer_id", .integer, true⟩,
   ⟨"feedback", .text, true⟩,
   ⟨"annotation_status", .varchar 50, true⟩,
   ⟨"assign_lexical", .boolean, true⟩,
   ⟨"assign_construction", .boolean, true⟩,
   ⟨"assign_dependency", .boolean, true⟩,
   ⟨"assign_discourse", .boolean, true⟩,
   ⟨"created_at", .datetime, true⟩,
   ⟨"updated_at", .datetime, true⟩]

/-- Columns of `concept`. -/
def concept : List Col :=
  [⟨"id", .integer, false⟩,
   ⟨"concept_label", .varchar 200, false⟩,
   ⟨"hindi_label", .varchar 200, true⟩,
   ⟨"sanskrit_label", .varchar 200, true⟩,
   ⟨"english_label", .varchar 200, true⟩,
   ⟨"mrsc", .varchar 200, true⟩,
   ⟨"created_at", .datetime, true⟩,
   ⟨"updated_at", .datetime, true⟩]

/-- Columns of `concept_submission`. -/
def concept_submission : List Col :=
  [⟨"id", .integer, false⟩,
   ⟨"concept_label", .varchar 200, false⟩,
   ⟨"hindi_label", .varchar 200, false⟩,
   ⟨"sanskrit_label", .varchar 200, true⟩,
   ⟨"english_label", .varchar 200, true⟩,
   ⟨"mrsc", .varchar 200, true⟩,
   ⟨"segment_id", .varchar 100, true⟩,
   ⟨"original_text", .text, true⟩,
   ⟨"wx_text", .text, true⟩,
   ⟨"english_text", .text, true⟩,
   ⟨"concept_index", .integer, true⟩,
   ⟨"validation_status", .varchar 50, true⟩,
   ⟨"submitted_by", .integer, true⟩,
   ⟨"validated_by", .integer, true⟩,
   ⟨"feedback", .text, true⟩,
   ⟨"created_at", .datetime, true⟩,
   ⟨"updated_at", .datetime, true⟩]

/-- Columns of `tam_dictionary`. -/
def tam_dictionary : List Col :=
  [⟨"id", .integer, false⟩,
   ⟨"u_tam", .varchar 255, false⟩,
   ⟨"hindi_tam", .varchar 255, false⟩,
   ⟨"sanskrit_tam", .varchar 255, true⟩,
   ⟨"english_tam", .varchar 255, false⟩,
   ⟨"created_at", .datetime, true⟩,
   ⟨"updated_at", .datetime, true⟩]

/-- Columns of `tam_submission`. -/
def tam_submission : List Col :=
  [⟨"id", .integer, false⟩,
   ⟨"u_tam", .varchar 255, false⟩,
   ⟨"hindi_tam", .varchar 255, false⟩,
   ⟨"sanskrit_tam", .varchar 255, true⟩,
   ⟨"english_tam", .varchar 255, false⟩,
   ⟨"segment_id", .varchar 100, true⟩,
   ⟨"original_text", .text, true⟩,
   ⟨"wx_text", .text, true⟩,
   ⟨"english_text", .text, true⟩,
   ⟨"validation_status", .varchar 50, true⟩,
   ⟨"submitted_by", .integer, true⟩,
   ⟨"validated_by", .integer, true⟩,
   ⟨"feedback", .text, true⟩,
   ⟨"created_at", .datetime, true⟩,
   ⟨"updated_at", .datetime, true⟩]

/-- Columns of `segment_feedback`. -/
def segment_feedback : List Col :=
  [⟨"id", .integer, false⟩,
   ⟨"segment_id", .integer, false⟩,
   ⟨"annotator_id", .integer, false⟩,
   ⟨"feedback_type", .varchar 50, false⟩,
   ⟨"feedback_text", .text, false⟩,
   ⟨"status", .varchar 50, true⟩,
   ⟨"created_at", .datetime, true⟩,
   ⟨"updated_at", .datetime, true⟩]

end OrigCols

namespace OptCols

/-- Columns of `user` in the optimized schema: `password_hash` widened to
256 characters, `role` and `status` now native enums. -/
def user : List Col :=
  [⟨"id", .integer, false⟩,
   ⟨"name", .varchar 150, false⟩,
   ⟨"email", .varchar 150, false⟩,
   ⟨"password_hash", .varchar 256, false⟩,
   ⟨"role", .enumT UserRoleEnum.values, false⟩,
   ⟨"languages", .arrayVarchar 50, false⟩,
   ⟨"organization", .varchar 150, true⟩,
   ⟨"status", .enumT UserStatusEnum.values, true⟩,
   ⟨"otp", .varchar 6, true⟩,
   ⟨"otp_expiration", .datetime, true⟩,
   ⟨"created_at", .datetime, true⟩,
   ⟨"updated_at", .datetime, true⟩]

/-- Columns of `project`. -/
def project : List Col :=
  [⟨"id", .integer, false⟩,
   ⟨"title", .varchar 200, false⟩,
   ⟨"description", .text, true⟩,
   ⟨"language", .varchar 50, false⟩,
   ⟨"organization", .varchar 150, true⟩,
   ⟨"created_at", .datetime, true⟩,
   ⟨"updated_at", .datetime, true⟩]

/-- Columns of `chapter`. -/
def chapter : List Col :=
  [⟨"id", .integer, false⟩,
   ⟨"project_id", .integer, false⟩,
   ⟨"title", .varchar 200, false⟩,
   ⟨"language", .varchar 50, false⟩,
   ⟨"chapter_text", .text, true⟩,
   ⟨"created_at", .datetime, true⟩,
   ⟨"updated_at", .datetime, true⟩]

/-- Columns of `sentence`. -/
def sentence : List Col :=
  [⟨"id", .integer, false⟩,
   ⟨"chapter_id", .integer, false⟩,
   ⟨"text", .text, false⟩,
   ⟨"sentence_id", .varchar 100, true⟩,
   ⟨"language", .varchar 50, false⟩,
   ⟨"created_at", .datetime, true⟩,
   ⟨"updated_at", .datetime, true⟩]

/-- Columns of `segment`. -/
def segment : List Col :=
  [⟨"id", .integer, false⟩,
   ⟨"sentence_id", .integer, false⟩,
   ⟨"text", .text, false⟩,
   ⟨"wxtext", .text, true⟩,
   ⟨"englishtext", .text, true⟩,
   ⟨"is_annotated", .boolean, true⟩,
   ⟨"segment_id", .varchar 100, true⟩,
   ⟨"language", .varchar 50, false⟩,
   ⟨"created_at", .datetime, true⟩,
   ⟨"updated_at", .datetime, true⟩]

/-- Columns of `usr`: `status` is now a native enum. -/
def usr : List Col :=
  [⟨"id", .integer, false⟩,
   ⟨"segment_id", .integer, false⟩,
   ⟨"status", .enumT USRStatusEnum.values, true⟩,
   ⟨"sentence_type", .varchar 100, true⟩,
   ⟨"language", .varchar 50, false⟩,
   ⟨"created_by", .integer, true⟩,
   ⟨"created_at", .datetime, true⟩,
   ⟨"updated_at", .datetime, true⟩]

/-- Columns of `lexical_info`: `segment_id` removed. -/
def lexical_info : List Col :=
  [⟨"id", .integer, false⟩,
   ⟨"usr_id", .integer, false⟩,
   ⟨"concept", .varchar 100, false⟩,
   ⟨"index", .integer, false⟩,
   ⟨"semantic_category", .varchar 100, true⟩,
   ⟨"morpho_semantic", .varchar 100, true⟩,
   ⟨"speakers_view", .varchar 100, true⟩]

/-- Columns of `dependency_info`: `segment_id` removed. -/
def dependency_info : List Col :=
  [⟨"id", .integer, false⟩,
   ⟨"usr_id", .integer, false⟩,
   ⟨"concept", .varchar 100, false⟩,
   ⟨"index", .integer, false⟩,
   ⟨"head_index", .varchar 20, true⟩,
   ⟨"relation", .varchar 100, false⟩]

/-- Columns of `discourse_coref_info`: `segment_id` removed. -/
def discourse_coref_info : List Col :=
  [⟨"id", .integer, false⟩,
   ⟨"usr_id", .integer, false⟩,
   ⟨"concept", .varchar 100, false⟩,
   ⟨"index", .integer, false⟩,
   ⟨"head_index", .varchar 20, true⟩,
   ⟨"relation", .varchar 100, false⟩]

/-- Columns of `construction_info`: `segment_id` removed. -/
def construction_info : List Col :=
  [⟨"id", .integer, false⟩,
   ⟨"usr_id", .integer, false⟩,
   ⟨"concept", .varchar 100, false⟩,
   ⟨"index", .integer, false⟩,
   ⟨"cxn_index", .varchar 20, true⟩,
   ⟨"component_type", .varchar 100, false⟩]

/-- Columns of `sentence_type_info`: `segment_id` removed. -/
def sentence_type_info : List Col :=
  [⟨"id", .integer, false⟩,
   ⟨"usr_id", .integer, false⟩,
   ⟨"sentence_type", .varchar 100, false⟩,
   ⟨"scope", .varchar 100, true⟩]

/-- Columns of `assignment`: `annotation_status` is now a native enum. -/
def assignment : List Col :=
  [⟨"id", .integer, false⟩,
   ⟨"segment_id", .integer, false⟩,
   ⟨"annotator_id", .integer, false⟩,
   ⟨"reviewer_id", .integer, true⟩,
   ⟨"feedback", .text, true⟩,
   ⟨"annotation_status", .enumT AnnotationStatusEnum.values, true⟩,
   ⟨"assign_lexical", .boolean, true⟩,
   ⟨"assign_construction", .boolean, true⟩,
   ⟨"assign_dependency", .boolean, true⟩,
   ⟨"assign_discourse", .boolean, true⟩,
   ⟨"created_at", .datetime, true⟩,
   ⟨"updated_at", .datetime, true⟩]

/-- Columns of `concept`. -/
def concept : List Col :=
  [⟨"id", .integer, false⟩,
   ⟨"concept_label", .varchar 200, false⟩,
   ⟨"hindi_label", .varchar 200, true⟩,
   ⟨"sanskrit_label", .varchar 200, true⟩,
   ⟨"english_label", .varchar 200, true⟩,
   ⟨"mrsc", .varchar 200, true⟩,
   ⟨"created_at", .datetime, true⟩,
   ⟨"updated_at", .datetime, true⟩]

/-- Columns of `concept_submission`: `validation_status` is now a native
enum. -/
def concept_submission : List Col :=
  [⟨"id", .integer, false⟩,
   ⟨"concept_label", .varchar 200, false⟩,
   ⟨"hindi_label", .varchar 200, false⟩,
   ⟨"sanskrit_label", .varchar 200, true⟩,
   ⟨"english_label", .varchar 200, true⟩,
   ⟨"mrsc", .varchar 200, true⟩,
   ⟨"segment_id", .varchar 100, true⟩,
   ⟨"original_text", .text, true⟩,
   ⟨"wx_text", .text, true⟩,
   ⟨"english_text", .text, true⟩,
   ⟨"concept_index", .integer, true⟩,
   ⟨"validation_status", .enumT ValidationStatusEnum.values, true⟩,
   ⟨"submitted_by", .integer, true⟩,
   ⟨"validated_by", .integer, true⟩,
   ⟨"feedback", .text, true⟩,
   ⟨"created_at", .datetime, true⟩,
   ⟨"updated_at", .datetime, true⟩]

/-- Columns of `tam_dictionary`. -/
def tam_dictionary : List Col :=
  [⟨"id", .integer, false⟩,
   ⟨"u_tam", .varchar 255, false⟩,
   ⟨"hindi_tam", .varchar 255, false⟩,
   ⟨"sanskrit_tam", .varchar 255, true⟩,
   ⟨"english_tam", .varchar 255, false⟩,
   ⟨"created_at", .datetime, true⟩,
   ⟨"updated_at", .datetime, true⟩]

/-- Columns of `tam_submission`: `validation_status` is now a native enum. -/
def tam_submission : List Col :=
  [⟨"id", .integer, false⟩,
   ⟨"u_tam", .varchar 255, false⟩,
   ⟨"hindi_tam", .varchar 255, false⟩,
   ⟨"sanskrit_tam", .varchar 255, true⟩,
   ⟨"english_tam", .varchar 255, false⟩,
   ⟨"segment_id", .varchar 100, true⟩,
   ⟨"original_text", .text, true⟩,
   ⟨"wx_text", .text, true⟩,
   ⟨"english_text", .text, true⟩,
   ⟨"validation_status", .enumT ValidationStatusEnum.values, true⟩,
   ⟨"submitted_by", .integer, true⟩,
   ⟨"validated_by", .integer, true⟩,
   ⟨"feedback", .text, true⟩,
   ⟨"created_at", .datetime, true⟩,
   ⟨"updated_at", .datetime, true⟩]

/-- Columns of `segment_feedback`: `feedback_type` and `status` are now
native enums. -/
def segment_feedback : List Col :=
  [⟨"id", .integer, false⟩,
   ⟨"segment_id", .integer, false⟩,
   ⟨"annotator_id", .integer, false⟩,
   ⟨"feedback_type", .enumT FeedbackTypeEnum.values, false⟩,
   ⟨"feedback_text", .text, false⟩,
   ⟨"status", .enumT FeedbackStatusEnum.values, true⟩,
   ⟨"created_at", .datetime, true⟩,
   ⟨"updated_at", .datetime, true⟩]

end OptCols

/-- Table names of the non-fragment tables paired with their column lists in
the two schema versions. -/
def nonFragmentTables : List (String × List Col × List Col) :=
  [("user", OrigCols.user, OptCols.user),
   ("project", OrigCols.project, OptCols.project),
   ("chapter", OrigCols.chapter, OptCols.chapter),
   ("sentence", OrigCols.sentence, OptCols.sentence),
   ("segment", OrigCols.segment, OptCols.segment),
   ("usr", OrigCols.usr, OptCols.usr),
   ("assignment", OrigCols.assignment, OptCols.assignment),
   ("concept", OrigCols.concept, OptCols.concept),
   ("concept_submission", OrigCols.concept_submission, OptCols.concept_submission),
   ("tam_dictionary", OrigCols.tam_dictionary, OptCols.tam_dictionary),
   ("tam_submission", OrigCols.tam_submission, OptCols.tam_submission),
   ("segment_feedback", OrigCols.segment_feedback, OptCols.segment_feedback)]

/-- The five annotation-fragment tables with their column lists in the two
schema versions. -/
def fragmentTables : List (String × List Col × List Col) :=
  [("lexical_info", OrigCols.lexical_info, OptCols.lexical_info),
   ("dependency_info", OrigCols.dependency_info, OptCols.dependency_info),
   ("discourse_coref_info", OrigCols.discourse_coref_info, OptCols.discourse_coref_info),
   ("construction_info", OrigCols.construction_info, OptCols.construction_info),
   ("sentence_type_info", OrigCols.sentence_type_info, OptCols.sentence_type_info)]

/-- Reading of claim C4: outside the five fragment tables, each table's
columns, types and nullability are identical in the two schema versions. -/
def nonFragmentTablesIdentical : Prop :=
  ∀ t ∈ nonFragmentTables, t.2.1 = t.2.2

namespace Orig

/-! ### Descendants of a project in the original schema -/

/-- Chapter row that is a child of project `pid`. -/
def chapterOfProject (db : DB) (pid : Nat) (c : Chapter) : Prop :=
  c ∈ db.chapters ∧ c.project_id = pid

instance chapterOfProjectDec (db : DB) (pid : Nat) (c : Chapter) :
    Decidable (chapterOfProject db pid c) := by
  unfold chapterOfProject
  infer_instance

/-- Sentence row descending from project `pid`. -/
def sentenceOfProject (db : DB) (pid : Nat) (s : Sentence) : Prop :=
  s ∈ db.sentences ∧ ∃ c, chapterOfProject db pid c ∧ s.chapter_id = c.id

/-- Segment row descending from project `pid`. -/
def segmentOfProject (db : DB) (pid : Nat) (g : Segment) : Prop :=
  g ∈ db.segments ∧ ∃ s, sentenceOfProject db pid s ∧ g.sentence_id = s.id

/-- USR row descending from project `pid`. -/
def usrOfProject (db : DB) (pid : Nat) (u : USR) : Prop :=
  u ∈ db.usrs ∧ ∃ g, segmentOfProject db pid g ∧ u.segment_id = g.id

/-- Result of a successful delete of project `pid`: the project row and every
descendant chapter, sentence, segment, USR and annotation-fragment row are
gone from the resulting state. -/
def projectPurged (db : DB) (pid : Nat) (db' : DB) : Prop :=
  (∀ p ∈ db'.projects, p.id ≠ pid) ∧
  (∀ c, chapterOfProject db pid c → c ∉ db'.chapters) ∧
  (∀ s, sentenceOfProject db pid s → s ∉ db'.sentences) ∧
  (∀ g, segmentOfProject db pid g → g ∉ db'.segments) ∧
  (∀ u, usrOfProject db pid u → u ∉ db'.usrs) ∧
  (∀ x ∈ db.lexical_infos, (∃ u, usrOfProject db pid u ∧ x.usr_id = u.id) →
    x ∉ db'.lexical_infos) ∧
  (∀ x ∈ db.dependency_infos, (∃ u, usrOfProject db pid u ∧ x.usr_id = u.id) →
    x ∉ db'.dependency_infos) ∧
  (∀ x ∈ db.discourse_coref_infos, (∃ u, usrOfProject db pid u ∧ x.usr_id = u.id) →
    x ∉ db'.discourse_coref_infos) ∧
  (∀ x ∈ db.construction_infos, (∃ u, usrOfProject db pid u ∧ x.usr_id = u.id) →
    x ∉ db'.construction_infos) ∧
  (∀ x ∈ db.sentence_type_infos, (∃ u, usrOfProject db pid u ∧ x.usr_id = u.id) →
    x ∉ db'.sentence_type_infos)

/-- USR row built with the declared column defaults of the original schema
(`status` default `'Pending'`, `language` default `'hindi'`, timestamps from
`current_timestamp`). -/
def newUSR (i gid : Nat) (creator : Option Nat) (now : Nat) : USR :=
  { id := i, segment_id := gid, status := some "Pending", sentence_type := none,
    language := "hindi", created_by := creator,
    created_at := some now, updated_at := some now }

end Orig

namespace Opt

/-! ### Descendants of a project in the optimized schema -/

/-- Chapter row that is a child of project `pid`. -/
def chapterOfProject (db : DB) (pid : Nat) (c : Chapter) : Prop :=
  c ∈ db.chapters ∧ c.project_id = pid

instance chapterOfProjectDec (db : DB) (pid : Nat) (c : Chapter) :
    Decidable (chapterOfProject db pid c) := by
  unfold chapterOfProject
  infer_instance

/-- Sentence row descending from project `pid`. -/
def sentenceOfProject (db : DB) (pid : Nat) (s : Sentence) : Prop :=
  s ∈ db.sentences ∧ ∃ c, chapterOfProject db pid c ∧ s.chapter_id = c.id

/-- Segment row descending from project `pid`. -/
def segmentOfProject (db : DB) (pid : Nat) (g : Segment) : Prop :=
  g ∈ db.segments ∧ ∃ s, sentenceOfProject db pid s ∧ g.sentence_id = s.id

/-- USR row descending from project `pid`. -/
def usrOfProject (db : DB) (pid : Nat) (u : USR) : Prop :=
  u ∈ db.usrs ∧ ∃ g, segmentOfProject db pid g ∧ u.segment_id = g.id

/-- Result of a successful delete of project `pid` in the optimized schema. -/
def projectPurged (db : DB) (pid : Nat) (db' : DB) : Prop :=
  (∀ p ∈ db'.projects, p.id ≠ pid) ∧
  (∀ c, chapterOfProject db pid c → c ∉ db'.chapters) ∧
  (∀ s, sentenceOfProject db pid s → s ∉ db'.sentences) ∧
  (∀ g, segmentOfProject db pid g → g ∉ db'.segments) ∧
  (∀ u, usrOfProject db pid u → u ∉ db'.usrs) ∧
  (∀ x ∈ db.lexical_infos, (∃ u, usrOfProject db pid u ∧ x.usr_id = u.id) →
    x ∉ db'.lexical_infos) ∧
  (∀ x ∈ db.dependency_infos, (∃ u, usrOfProject db pid u ∧ x.usr_id = u.id) →
    x ∉ db'.dependency_infos) ∧
  (∀ x ∈ db.discourse_coref_infos, (∃ u, usrOfProject db pid u ∧ x.usr_id = u.id) →
    x ∉ db'.discourse_coref_infos) ∧
  (∀ x ∈ db.construction_infos, (∃ u, usrOfProject db pid u ∧ x.usr_id = u.id) →
    x ∉ db'.construction_infos) ∧
  (∀ x ∈ db.sentence_type_infos, (∃ u, usrOfProject db pid u ∧ x.usr_id = u.id) →
    x ∉ db'.sentence_type_infos)

/-- USR row built with the declared column defaults of the optimized schema
(`status` default `USRStatusEnum.Pending`, `language` default `'hindi'`). -/
def newUSR (i gid : Nat) (creator : Option Nat) (now : Nat) : USR :=
  { id := i, segment_id := gid, status := some USRStatusEnum.Pending,
    sentence_type := none, language := "hindi", created_by := creator,
    created_at := some now, updated_at := some now }

end Opt

/-! ## Model instance of the external hashing collaborator

`set_password` / `check_password` delegate entirely to werkzeug's
`generate_password_hash` / `check_password_hash`.  The claim theorems are
parametric in any pair satisfying that library's contract (verification
succeeds exactly for the password that was hashed; the stored string is
never the raw password).  The pair below is a concrete member of the
contract family used to instantiate witnesses. -/

/-- Modelled from the spec: stand-in for werkzeug's
`generate_password_hash`, which is not part of this repository.  It produces
the library's `method$salt$hash` layout with a constant salt and the hash
part injective in the password — one executable member of the contract the
claim theorems quantify over. -/
def modelGen (_salt password : String) : String :=
  "scrypt$$" ++ password

/-- Modelled from the spec: stand-in for werkzeug's `check_password_hash`,
matching `modelGen`. -/
def modelCheck (stored candidate : String) : Bool :=
  stored == "scrypt$$" ++ candidate

/-! ## Concrete fixture rows used by witnesses and counterexamples -/

/-- Fixture user of the original schema. -/
def fxOUser (i : Nat) : Orig.User :=
  ⟨i, "u", "u@x", "hash", "annotator", ["hindi"], none, some "active",
   none, none, some 0, some 0⟩

/-- Fixture project of the original schema. -/
def fxOProject (i : Nat) : Orig.Project :=
  ⟨i, "p", none, "hindi", none, some 0, some 0⟩

/-- Fixture chapter of the original schema. -/
def fxOChapter (i pid : Nat) : Orig.Chapter :=
  ⟨i, pid, "ch", "hindi", none, some 0, some 0⟩

/-- Fixture sentence of the original schema. -/
def fxOSentence (i cid : Nat) : Orig.Sentence :=
  ⟨i, cid, "txt", none, "hindi", some 0, some 0⟩

/-- Fixture segment of the original schema. -/
def fxOSegment (i sid : Nat) : Orig.Segment :=
  ⟨i, sid, "txt", none, none, some false, none, "hindi", some 0, some 0⟩

/-- Fixture USR of the original schema. -/
def fxOUSR (i gid : Nat) (st : Option String) (creator : Option Nat) : Orig.USR :=
  ⟨i, gid, st, none, "hindi", creator, some 0, some 0⟩

/-- Fixture lexical-info row of the original schema. -/
def fxOLex (i uid gid : Nat) : Orig.LexicalInfo :=
  ⟨i, uid, gid, "cpt", 1, none, none, none⟩

/-- Fixture dependency-info row of the original schema. -/
def fxODep (i uid gid : Nat) : Orig.DependencyInfo :=
  ⟨i, uid, gid, "cpt", 1, none, "rel"⟩

/-- Fixture discourse-coref-info row of the original schema. -/
def fxODisc (i uid gid : Nat) : Orig.DiscourseCorefInfo :=
  ⟨i, uid, gid, "cpt", 1, none, "rel"⟩

/-- Fixture construction-info row of the original schema. -/
def fxOCxn (i uid gid : Nat) : Orig.ConstructionInfo :=
  ⟨i, uid, gid, "cpt", 1, none, "comp"⟩

/-- Fixture sentence-type-info row of the original schema. -/
def fxOSti (i uid gid : Nat) : Orig.SentenceTypeInfo :=
  ⟨i, uid, "decl", none, gid⟩

/-- Fixture assignment of the original schema. -/
def fxOAssign (i gid aid : Nat) (rid : Option Nat) : Orig.Assignment :=
  ⟨i, gid, aid, rid, none, some "Assigned", some false, some false,
   some false, some false, some 0, some 0⟩

/-- Fixture segment-feedback row of the original schema. -/
def fxOFeedback (i gid aid : Nat) : Orig.SegmentFeedback :=
  ⟨i, gid, aid, "issue", "txt", some "open", some 0, some 0⟩

/-- Fixture user of the optimized schema. -/
def fxPUser (i : Nat) : Opt.User :=
  ⟨i, "u", "u@x", "hash", .annotator, ["hindi"], none, some .active,
   none, none, some 0, some 0⟩

/-- Fixture project of the optimized schema. -/
def fxPProject (i : Nat) : Opt.Project :=
  ⟨i, "p", none, "hindi", none, some 0, some 0⟩

/-- Fixture chapter of the optimized schema. -/
def fxPChapter (i pid : Nat) : Opt.Chapter :=
  ⟨i, pid, "ch", "hindi", none, some 0, some 0⟩

/-- Fixture sentence of the optimized schema. -/
def fxPSentence (i cid : Nat) : Opt.Sentence :=
  ⟨i, cid, "txt", none, "hindi", some 0, some 0⟩

/-- Fixture segment of the optimized schema. -/
def fxPSegment (i sid : Nat) : Opt.Segment :=
  ⟨i, sid, "txt", none, none, some false, none, "hindi", some 0, some 0⟩

/-- Fixture USR of the optimized schema. -/
def fxPUSR (i gid : Nat) (st : Option USRStatusEnum) (creator : Option Nat) : Opt.USR :=
  ⟨i, gid, st, none, "hindi", creator, some 0, some 0⟩

/-- Fixture lexical-info row of the optimized schema. -/
def fxPLex (i uid : Nat) : Opt.LexicalInfo :=
  ⟨i, uid, "cpt", 1, none, none, none⟩

/-- Fixture dependency-info row of the optimized schema. -/
def fxPDep (i uid : Nat) : Opt.DependencyInfo :=
  ⟨i, uid, "cpt", 1, none, "rel"⟩

/-- Fixture discourse-coref-info row of the optimized schema. -/
def fxPDisc (i uid : Nat) : Opt.DiscourseCorefInfo :=
  ⟨i, uid, "cpt", 1, none, "rel"⟩

/-- Fixture construction-info row of the optimized schema. -/
def fxPCxn (i uid : Nat) : Opt.ConstructionInfo :=
  ⟨i, uid, "cpt", 1, none, "comp"⟩

/-- Fixture sentence-type-info row of the optimized schema. -/
def fxPSti (i uid : Nat) : Opt.SentenceTypeInfo :=
  ⟨i, uid, "decl", none⟩

/-- Fixture assignment of the optimized schema. -/
def fxPAssign (i gid aid : Nat) (rid : Option Nat) : Opt.Assignment :=
  ⟨i, gid, aid, rid, none, some .Assigned, some false, some false,
   some false, some false, some 0, some 0⟩

/-- Fixture segment-feedback row of the optimized schema. -/
def fxPFeedback (i gid aid : Nat) : Opt.SegmentFeedback :=
  ⟨i, gid, aid, .issue, "txt", some .open, some 0, some 0⟩

/-- Well-formed original-schema state whose only segment carries a
`SegmentFeedback` row: the feedback blocks any delete reaching the segment. -/
def c1BadDB : Orig.DB :=
  { Orig.emptyDB with
    users := [fxOUser 1]
    projects := [fxOProject 1]
    chapters := [fxOChapter 1 1]
    sentences := [fxOSentence 1 1]
    segments := [fxOSegment 1 1]
    segment_feedbacks := [fxOFeedback 1 1 1] }

/-- Original-schema state with one full project chain and no feedback. -/
def c1OrigDB : Orig.DB :=
  { Orig.emptyDB with
    users := [fxOUser 1]
    projects := [fxOProject 1]
    chapters := [fxOChapter 1 1]
    sentences := [fxOSentence 1 1]
    segments := [fxOSegment 1 1]
    usrs := [fxOUSR 1 1 (some "Pending") (some 1)]
    lexical_infos := [fxOLex 1 1 1]
    dependency_infos := [fxODep 1 1 1]
    sentence_type_infos := [fxOSti 1 1 1] }

/-- State left after deleting project 1 from `c1OrigDB`. -/
def c1OrigDB' : Orig.DB := { Orig.emptyDB with users := [fxOUser 1] }

/-- Optimized-schema state with one full project chain and no feedback. -/
def c1OptDB : Opt.DB :=
  { Opt.emptyDB with
    users := [fxPUser 1]
    projects := [fxPProject 1]
    chapters := [fxPChapter 1 1]
    sentences := [fxPSentence 1 1]
    segments := [fxPSegment 1 1]
    usrs := [fxPUSR 1 1 (some .Pending) (some 1)]
    lexical_infos := [fxPLex 1 1]
    sentence_type_infos := [fxPSti 1 1] }

/-- State left after deleting project 1 from `c1OptDB`. -/
def c1OptDB' : Opt.DB := { Opt.emptyDB with users := [fxPUser 1] }

/-- Original-schema state for the user-delete witness: two users, one
dangling-free segment and one assignment annotated by user 1 and reviewed by
user 2. -/
def c9OrigDB : Orig.DB :=
  { Orig.emptyDB with
    users := [fxOUser 1, fxOUser 2]
    segments := [fxOSegment 1 1]
    assignments := [fxOAssign 1 1 1 (some 2)] }

/-- State left after deleting user 1 from `c9OrigDB`. -/
def c9OrigDB' : Orig.DB :=
  { Orig.emptyDB with
    users := [fxOUser 2]
    segments := [fxOSegment 1 1] }

/-- Optimized-schema counterpart of `c9OrigDB`. -/
def c9OptDB : Opt.DB :=
  { Opt.emptyDB with
    users := [fxPUser 1, fxPUser 2]
    segments := [fxPSegment 1 1]
    assignments := [fxPAssign 1 1 1 (some 2)] }

/-- State left after deleting user 1 from `c9OptDB`. -/
def c9OptDB' : Opt.DB :=
  { Opt.emptyDB with
    users := [fxPUser 2]
    segments := [fxPSegment 1 1] }

/-- Optimized-schema state whose only segment carries a feedback row. -/
def c10OptDB : Opt.DB :=
  { Opt.emptyDB with
    users := [fxPUser 1]
    segments := [fxPSegment 1 1]
    segment_feedbacks := [fxPFeedback 1 1 1] }

/-- Well-formed original-schema state in which every annotation-fragment row
hangs off USR 1 (which annotates segment 1) while its own redundant
`segment_id` column points at segment 2. -/
def c8DB : Orig.DB :=
  { Orig.emptyDB with
    users := [fxOUser 1]
    projects := [fxOProject 1]
    chapters := [fxOChapter 1 1]
    sentences := [fxOSentence 1 1]
    segments := [fxOSegment 1 1, fxOSegment 2 1]
    usrs := [fxOUSR 1 1 (some "Pending") none]
    lexical_infos := [fxOLex 1 1 2]
    dependency_infos := [fxODep 1 1 2]
    discourse_coref_infos := [fxODisc 1 1 2]
    construction_infos := [fxOCxn 1 1 2]
    sentence_type_infos := [fxOSti 1 1 2] }

/-- Calling `set_password` on the user row with id `uid` inside a database
state: the ORM updates that row's `password_hash` and flushes nothing else. -/
def Orig.setUserPassword (db : Orig.DB) (uid : Nat)
    (gen : String → String → String) (s p : String) : Orig.DB :=
  { db with users :=
      db.users.map (fun w => if w.id == uid then w.set_password gen s p else w) }

/-- Optimized-schema counterpart of `Orig.setUserPassword`. -/
def Opt.setUserPassword (db : Opt.DB) (uid : Nat)
    (gen : String → String → String) (s p : String) : Opt.DB :=
  { db with users :=
      db.users.map (fun w => if w.id == uid then w.set_password gen s p else w) }

/-- Well-formed original-schema state holding a USR whose free-string status
is none of the three lifecycle values and whose `created_by` is NULL. -/
def c7DB : Orig.DB :=
  { Orig.emptyDB with
    projects := [fxOProject 1]
    chapters := [fxOChapter 1 1]
    sentences := [fxOSentence 1 1]
    segments := [fxOSegment 1 1]
    usrs := [fxOUSR 1 1 (some "Bogus") none] }

/-- Optimized-schema state with one segment that already has one USR. -/
def c7OptDB : Opt.DB :=
  { Opt.emptyDB with
    segments := [fxPSegment 1 1]
    usrs := [fxPUSR 1 1 (some .Pending) none] }

/-! ## Helper lemmas -/

/-- An element satisfying the removal predicate does not survive the
corresponding keep-filter. -/
theorem not_mem_filter_keep {α : Type} (l : List α) (p : α → Bool) (x : α)
    (hx : p x = true) : x ∉ l.filter (fun y => !p y) := by
  intro hmem
  rw [List.mem_filter] at hmem
  rw [hx] at hmem
  simp at hmem

namespace Orig

/-- Successful `removeHier` purges every descendant of project `pid`
whenever the delete spec targets the project row and its chapters. -/
theorem removeHier_purges (db : DB) (d : DelSpec) (pid : Nat) (db' : DB)
    (h : removeHier db d = some db')
    (hP : ∀ p : Project, p.id = pid → d.pP p = true)
    (hC : ∀ c : Chapter, c.project_id = pid → d.pC c = true) :
    projectPurged db pid db' := by
  unfold removeHier at h
  split at h
  · exact absurd h (by simp)
  rw [Option.some_inj] at h
  subst h
  have hch : ∀ c, chapterOfProject db pid c → chGoneB db d c = true := by
    rintro c ⟨hcm, hcp⟩
    unfold chGoneB
    rw [hC c hcp]
    simp
  have hsen : ∀ s, sentenceOfProject db pid s → senGoneB db d s = true := by
    rintro s ⟨hsm, c, hcof, hsc⟩
    unfold senGoneB
    rw [Bool.or_eq_true]
    refine Or.inr ?_
    rw [List.any_eq_true]
    exact ⟨c, List.mem_filter.mpr ⟨hcof.1, hch c hcof⟩, by simp [hsc]⟩
  have hseg : ∀ g, segmentOfProject db pid g → segGoneB db d g = true := by
    rintro g ⟨hgm, s, hsof, hgs⟩
    unfold segGoneB
    rw [Bool.or_eq_true]
    refine Or.inr ?_
    rw [List.any_eq_true]
    exact ⟨s, List.mem_filter.mpr ⟨hsof.1, hsen s hsof⟩, by simp [hgs]⟩
  have husr : ∀ u, usrOfProject db pid u → usrGoneB db d u = true := by
    rintro u ⟨hum, g, hgof, hug⟩
    unfold usrGoneB segIdGoneB
    rw [List.any_eq_true]
    exact ⟨g, List.mem_filter.mpr ⟨hgof.1, hseg g hgof⟩, by simp [hug]⟩
  have husrId : ∀ u, usrOfProject db pid u → usrIdGoneB db d u.id = true := by
    intro u huof
    unfold usrIdGoneB
    rw [List.any_eq_true]
    exact ⟨u, List.mem_filter.mpr ⟨huof.1, husr u huof⟩, by simp⟩
  refine ⟨?_, ?_, ?_, ?_, ?_, ?_, ?_, ?_, ?_, ?_⟩
  · intro p hp hpid
    rw [List.mem_filter] at hp
    rw [hP p hpid] at hp
    simp at hp
  · intro c hcof
    exact not_mem_filter_keep _ _ _ (hch c hcof)
  · intro s hsof
    exact not_mem_filter_keep _ _ _ (hsen s hsof)
  · intro g hgof
    exact not_mem_filter_keep _ _ _ (hseg g hgof)
  · intro u huof
    exact not_mem_filter_keep _ _ _ (husr u huof)
  · rintro x hxm ⟨u, huof, hxu⟩
    refine not_mem_filter_keep _ (fun y : LexicalInfo => usrIdGoneB db d y.usr_id) _ ?_
    simp only [hxu]
    exact husrId u huof
  · rintro x hxm ⟨u, huof, hxu⟩
    refine not_mem_filter_keep _ (fun y : DependencyInfo => usrIdGoneB db d y.usr_id) _ ?_
    simp only [hxu]
    exact husrId u huof
  · rintro x hxm ⟨u, huof, hxu⟩
    refine not_mem_filter_keep _ (fun y : DiscourseCorefInfo => usrIdGoneB db d y.usr_id) _ ?_
    simp only [hxu]
    exact husrId u huof
  · rintro x hxm ⟨u, huof, hxu⟩
    refine not_mem_filter_keep _ (fun y : ConstructionInfo => usrIdGoneB db d y.usr_id) _ ?_
    simp only [hxu]
    exact husrId u huof
  · rintro x hxm ⟨u, huof, hxu⟩
    refine not_mem_filter_keep _
      (fun y : SentenceTypeInfo => usrIdGoneB db d y.usr_id || segIdGoneB db d y.segment_id) _ ?_
    simp only [hxu]
    rw [husrId u huof]
    simp

end Orig

namespace Opt

/-- Successful `removeHier` purges every descendant of project `pid` in the
optimized schema. -/
theorem removeHier_purges_opt (db : DB) (d : DelSpec) (pid : Nat) (db' : DB)
    (h : removeHier db d = some db')
    (hP : ∀ p : Project, p.id = pid → d.pP p = true)
    (hC : ∀ c : Chapter, c.project_id = pid → d.pC c = true) :
    projectPurged db pid db' := by
  unfold removeHier at h
  split at h
  · exact absurd h (by simp)
  rw [Option.some_inj] at h
  subst h
  have hch : ∀ c, chapterOfProject db pid c → chGoneB db d c = true := by
    rintro c ⟨hcm, hcp⟩
    unfold chGoneB
    rw [hC c hcp]
    simp
  have hsen : ∀ s, sentenceOfProject db pid s → senGoneB db d s = true := by
    rintro s ⟨hsm, c, hcof, hsc⟩
    unfold senGoneB
    rw [Bool.or_eq_true]
    refine Or.inr ?_
    rw [List.any_eq_true]
    exact ⟨c, List.mem_filter.mpr ⟨hcof.1, hch c hcof⟩, by simp [hsc]⟩
  have hseg : ∀ g, segmentOfProject db pid g → segGoneB db d g = true := by
    rintro g ⟨hgm, s, hsof, hgs⟩
    unfold segGoneB
    rw [Bool.or_eq_true]
    refine Or.inr ?_
    rw [List.any_eq_true]
    exact ⟨s, List.mem_filter.mpr ⟨hsof.1, hsen s hsof⟩, by simp [hgs]⟩
  have husr : ∀ u, usrOfProject db pid u → usrGoneB db d u = true := by
    rintro u ⟨hum, g, hgof, hug⟩
    unfold usrGoneB segIdGoneB
    rw [List.any_eq_true]
    exact ⟨g, List.mem_filter.mpr ⟨hgof.1, hseg g hgof⟩, by simp [hug]⟩
  have husrId : ∀ u, usrOfProject db pid u → usrIdGoneB db d u.id = true := by
    intro u huof
    unfold usrIdGoneB
    rw [List.any_eq_true]
    exact ⟨u, List.mem_filter.mpr ⟨huof.1, husr u huof⟩, by simp⟩
  refine ⟨?_, ?_, ?_, ?_, ?_, ?_, ?_, ?_, ?_, ?_⟩
  · intro p hp hpid
    rw [List.mem_filter] at hp
    rw [hP p hpid] at hp
    simp at hp
  · intro c hcof
    exact not_mem_filter_keep _ _ _ (hch c hcof)
  · intro s hsof
    exact not_mem_filter_keep _ _ _ (hsen s hsof)
  · intro g hgof
    exact not_mem_filter_keep _ _ _ (hseg g hgof)
  · intro u huof
    exact not_mem_filter_keep _ _ _ (husr u huof)
  · rintro x hxm ⟨u, huof, hxu⟩
    refine not_mem_filter_keep _ (fun y : LexicalInfo => usrIdGoneB db d y.usr_id) _ ?_
    simp only [hxu]
    exact husrId u huof
  · rintro x hxm ⟨u, huof, hxu⟩
    refine not_mem_filter_keep _ (fun y : DependencyInfo => usrIdGoneB db d y.usr_id) _ ?_
    simp only [hxu]
    exact husrId u huof
  · rintro x hxm ⟨u, huof, hxu⟩
    refine not_mem_filter_keep _ (fun y : DiscourseCorefInfo => usrIdGoneB db d y.usr_id) _ ?_
    simp only [hxu]
    exact husrId u huof
  · rintro x hxm ⟨u, huof, hxu⟩
    refine not_mem_filter_keep _ (fun y : ConstructionInfo => usrIdGoneB db d y.usr_id) _ ?_
    simp only [hxu]
    exact husrId u huof
  · rintro x hxm ⟨u, huof, hxu⟩
    refine not_mem_filter_keep _ (fun y : SentenceTypeInfo => usrIdGoneB db d y.usr_id) _ ?_
    simp only [hxu]
    exact husrId u huof

end Opt

/-- C1 (counterexample): the claim quantifies over every database state, but
on a well-formed state whose descendant segment carries a `SegmentFeedback`
row (a child relationship with no delete cascade and a non-nullable foreign
key), deleting the project fails and removes nothing — the descendant
chapter is not removed. -/
theorem claim_C1_counterexample :
    Orig.wellFormed c1BadDB ∧
    Orig.chapterOfProject c1BadDB 1 (fxOChapter 1 1) ∧
    Orig.deleteProject c1BadDB 1 = none := by
  refine ⟨by decide, by decide, by decide⟩

/-- C1 (amended): in both schema versions, whenever deleting a Project row
succeeds (no `SegmentFeedback` row — nor, in the original schema, any
surviving annotation-fragment row — still references a descendant segment),
the declared cascade chain removes the project row and every descendant
Chapter, Sentence, Segment, USR and annotation-fragment row (LexicalInfo,
DependencyInfo, DiscourseCorefInfo, ConstructionInfo, SentenceTypeInfo). -/
theorem claim_C1_cascade :
    (∀ (db : Orig.DB) (pid : Nat) (db' : Orig.DB),
      Orig.deleteProject db pid = some db' → Orig.projectPurged db pid db') ∧
    (∀ (db : Opt.DB) (pid : Nat) (db' : Opt.DB),
      Opt.deleteProject db pid = some db' → Opt.projectPurged db pid db') := by
  constructor
  · intro db pid db' h
    refine Orig.removeHier_purges db _ pid db' h ?_ ?_
    · intro p hp
      simp [hp]
    · intro c hc
      simp [hc]
  · intro db pid db' h
    refine Opt.removeHier_purges_opt db _ pid db' h ?_ ?_
    · intro p hp
      simp [hp]
    · intro c hc
      simp [hc]

/-- C1 (witness): on a concrete one-project chain the delete succeeds in
both schema versions and the purge property holds of the resulting state. -/
theorem claim_C1_witness :
    Orig.projectPurged c1OrigDB 1 c1OrigDB' ∧
    Opt.projectPurged c1OptDB 1 c1OptDB' :=
  ⟨claim_C1_cascade.1 c1OrigDB 1 c1OrigDB' (by decide),
   claim_C1_cascade.2 c1OptDB 1 c1OptDB' (by decide)⟩

/-- C8: in the original schema nothing ties an annotation-fragment row's
redundant `segment_id` to the `segment_id` of its owning USR: a state
satisfying every declared constraint holds a `LexicalInfo` row (and one of
each other fragment kind) whose `segment_id` differs from its USR's. -/
theorem claim_C8_crosslink :
    Orig.wellFormed c8DB ∧
    fxOLex 1 1 2 ∈ c8DB.lexical_infos ∧
    fxOUSR 1 1 (some "Pending") none ∈ c8DB.usrs ∧
    (fxOLex 1 1 2).usr_id = (fxOUSR 1 1 (some "Pending") none).id ∧
    (fxOLex 1 1 2).segment_id ≠ (fxOUSR 1 1 (some "Pending") none).segment_id ∧
    (fxOSti 1 1 2) ∈ c8DB.sentence_type_infos ∧
    (fxOSti 1 1 2).segment_id ≠ (fxOUSR 1 1 (some "Pending") none).segment_id := by
  decide

/-- C9: in both schema versions `User.annotator_assignments` and
`User.reviewer_assignments` carry `all, delete-orphan`, so after a
successful user delete no surviving assignment names the deleted user as
annotator or as reviewer. -/
theorem claim_C9_user_cascade :
    (∀ (db : Orig.DB) (uid : Nat) (db' : Orig.DB),
      Orig.deleteUser db uid = some db' →
      ∀ a ∈ db'.assignments, a.annotator_id ≠ uid ∧ a.reviewer_id ≠ some uid) ∧
    (∀ (db : Opt.DB) (uid : Nat) (db' : Opt.DB),
      Opt.deleteUser db uid = some db' →
      ∀ a ∈ db'.assignments, a.annotator_id ≠ uid ∧ a.reviewer_id ≠ some uid) := by
  constructor
  · intro db uid db' h a ha
    simp only [Orig.deleteUser] at h
    split at h
    · exact absurd h (by simp)
    rw [Option.some_inj] at h
    subst h
    rw [List.mem_filter] at ha
    have hk := ha.2
    simp only [Bool.not_eq_eq_eq_not, Bool.not_true, Bool.or_eq_false_iff] at hk
    exact ⟨by simpa using hk.1, by simpa using hk.2⟩
  · intro db uid db' h a ha
    simp only [Opt.deleteUser] at h
    split at h
    · exact absurd h (by simp)
    rw [Option.some_inj] at h
    subst h
    rw [List.mem_filter] at ha
    have hk := ha.2
    simp only [Bool.not_eq_eq_eq_not, Bool.not_true, Bool.or_eq_false_iff] at hk
    exact ⟨by simpa using hk.1, by simpa using hk.2⟩

/-- C9 (witness): deleting user 1 on a concrete state succeeds in both
versions and the assignment user 1 annotated is gone. -/
theorem claim_C9_witness :
    fxOAssign 1 1 1 (some 2) ∉ c9OrigDB'.assignments ∧
    fxPAssign 1 1 1 (some 2) ∉ c9OptDB'.assignments := by
  constructor
  · intro hmem
    have h := (claim_C9_user_cascade.1 c9OrigDB 1 c9OrigDB' (by decide)) _ hmem
    exact h.1 rfl
  · intro hmem
    have h := (claim_C9_user_cascade.2 c9OptDB 1 c9OptDB' (by decide)) _ hmem
    exact h.1 rfl

/-- C10: the segment-to-feedback relationship declares no delete cascade
while `SegmentFeedback.segment_id` is non-nullable, so in both schema
versions deleting a segment that has a feedback row fails (the state is the
unchanged one the caller kept), unlike the cascading USR and assignment
children. -/
theorem claim_C10_feedback_blocks :
    (∀ (db : Orig.DB) (gid : Nat), (∃ g ∈ db.segments, g.id = gid) →
      (∃ f ∈ db.segment_feedbacks, f.segment_id = gid) →
      Orig.deleteSegment db gid = none) ∧
    (∀ (db : Opt.DB) (gid : Nat), (∃ g ∈ db.segments, g.id = gid) →
      (∃ f ∈ db.segment_feedbacks, f.segment_id = gid) →
      Opt.deleteSegment db gid = none) := by
  constructor
  · rintro db gid ⟨g, hg, hgid⟩ ⟨f, hf, hfs⟩
    unfold Orig.deleteSegment Orig.removeHier
    have hb : Orig.hierBlocked db
        ⟨fun _ => false, fun _ => false, fun _ => false, fun g => g.id == gid⟩ = true := by
      unfold Orig.hierBlocked
      simp only [Bool.or_eq_true, List.any_eq_true]
      refine Or.inr ⟨f, hf, ?_⟩
      unfold Orig.segIdGoneB
      rw [List.any_eq_true]
      refine ⟨g, List.mem_filter.mpr ⟨hg, ?_⟩, by simp [hgid, hfs]⟩
      unfold Orig.segGoneB
      simp [hgid]
    rw [hb]
    simp
  · rintro db gid ⟨g, hg, hgid⟩ ⟨f, hf, hfs⟩
    unfold Opt.deleteSegment Opt.removeHier
    have hb : Opt.hierBlocked db
        ⟨fun _ => false, fun _ => false, fun _ => false, fun g => g.id == gid⟩ = true := by
      unfold Opt.hierBlocked
      rw [List.any_eq_true]
      refine ⟨f, hf, ?_⟩
      unfold Opt.segIdGoneB
      rw [List.any_eq_true]
      refine ⟨g, List.mem_filter.mpr ⟨hg, ?_⟩, by simp [hgid, hfs]⟩
      unfold Opt.segGoneB
      simp [hgid]
    rw [hb]
    simp

/-- Verification of the model hash pair: checking succeeds exactly for the
hashed password. -/
theorem modelCheck_modelGen (s p q : String) :
    modelCheck (modelGen s p) q = true ↔ q = p := by
  unfold modelCheck modelGen
  rw [beq_iff_eq]
  constructor
  · intro h
    have h2 := congrArg String.data h
    simp [String.data_append] at h2
    exact (String.ext h2).symm
  · intro h
    rw [h]

/-- The model hash never equals the raw password. -/
theorem modelGen_ne (s p : String) : modelGen s p ≠ p := by
  intro h
  have h2 := congrArg String.length h
  simp [modelGen, String.length_append] at h2
  exact absurd h2 (by decide)

/-- C2: for any hashing collaborator satisfying werkzeug's contract
(checking succeeds exactly for the hashed password; the hash never equals
the raw input), `check_password p` returns true exactly when the most recent
`set_password` call stored `p`, and the stored `password_hash` after
`set_password p` never equals `p` — in both schema versions. -/
theorem claim_C2_password_roundtrip :
    ∀ (gen : String → String → String) (chk : String → String → Bool),
    (∀ s p q, chk (gen s p) q = true ↔ q = p) →
    (∀ s p, gen s p ≠ p) →
    (∀ (u : Orig.User) (calls : List (String × String)) (s p q : String),
      (Orig.User.apply_passwords gen u (calls ++ [(s, q)])).check_password chk p = true ↔
        p = q) ∧
    (∀ (u : Orig.User) (s p : String), (u.set_password gen s p).password_hash ≠ p) ∧
    (∀ (u : Opt.User) (calls : List (String × String)) (s p q : String),
      (Opt.User.apply_passwords gen u (calls ++ [(s, q)])).check_password chk p = true ↔
        p = q) ∧
    (∀ (u : Opt.User) (s p : String), (u.set_password gen s p).password_hash ≠ p) := by
  intro gen chk hchk hne
  refine ⟨?_, ?_, ?_, ?_⟩
  · intro u calls s p q
    unfold Orig.User.apply_passwords
    rw [List.foldl_append]
    simp only [List.foldl_cons, List.foldl_nil]
    simpa [Orig.User.check_password, Orig.User.set_password] using hchk s q p
  · intro u s p
    simpa [Orig.User.set_password] using hne s p
  · intro u calls s p q
    unfold Opt.User.apply_passwords
    rw [List.foldl_append]
    simp only [List.foldl_cons, List.foldl_nil]
    simpa [Opt.User.check_password, Opt.User.set_password] using hchk s q p
  · intro u s p
    simpa [Opt.User.set_password] using hne s p

/-- C2 (witness): with the model hash pair, the password stored by the most
recent of two `set_password` calls verifies, and the stored hash differs
from the raw input. -/
theorem claim_C2_witness :
    (Orig.User.apply_passwords modelGen (fxOUser 1)
      [("s1", "old"), ("s2", "new")]).check_password modelCheck "new" = true ∧
    ((fxPUser 1).set_password modelGen "s1" "pw").password_hash ≠ "pw" := by
  have h := claim_C2_password_roundtrip modelGen modelCheck modelCheck_modelGen modelGen_ne
  constructor
  · exact (h.1 (fxOUser 1) [("s1", "old")] "s2" "new" "new").mpr rfl
  · exact h.2.2.2 (fxPUser 1) "s1" "pw"

/-- C5: for any hashing collaborator whose output never equals the raw
input, `set_password` writes only the `password_hash` field of its user (to
the derived hash, which differs from the raw password), leaves every other
field of the user unchanged, and at the state level leaves every other table
and every other user row untouched — in both schema versions. -/
theorem claim_C5_set_password_frame :
    ∀ (gen : String → String → String),
    (∀ s p, gen s p ≠ p) →
    (∀ (u : Orig.User) (s p : String),
      (u.set_password gen s p).id = u.id ∧
      (u.set_password gen s p).name = u.name ∧
      (u.set_password gen s p).email = u.email ∧
      (u.set_password gen s p).role = u.role ∧
      (u.set_password gen s p).languages = u.languages ∧
      (u.set_password gen s p).organization = u.organization ∧
      (u.set_password gen s p).status = u.status ∧
      (u.set_password gen s p).otp = u.otp ∧
      (u.set_password gen s p).otp_expiration = u.otp_expiration ∧
      (u.set_password gen s p).created_at = u.created_at ∧
      (u.set_password gen s p).updated_at = u.updated_at ∧
      (u.set_password gen s p).password_hash = gen s p ∧
      (u.set_password gen s p).password_hash ≠ p) ∧
    (∀ (db : Orig.DB) (uid : Nat) (s p : String),
      (Orig.setUserPassword db uid gen s p).projects = db.projects ∧
      (Orig.setUserPassword db uid gen s p).chapters = db.chapters ∧
      (Orig.setUserPassword db uid gen s p).sentences = db.sentences ∧
      (Orig.setUserPassword db uid gen s p).segments = db.segments ∧
      (Orig.setUserPassword db uid gen s p).usrs = db.usrs ∧
      (Orig.setUserPassword db uid gen s p).lexical_infos = db.lexical_infos ∧
      (Orig.setUserPassword db uid gen s p).dependency_infos = db.dependency_infos ∧
      (Orig.setUserPassword db uid gen s p).discourse_coref_infos = db.discourse_coref_infos ∧
      (Orig.setUserPassword db uid gen s p).construction_infos = db.construction_infos ∧
      (Orig.setUserPassword db uid gen s p).sentence_type_infos = db.sentence_type_infos ∧
      (Orig.setUserPassword db uid gen s p).assignments = db.assignments ∧
      (Orig.setUserPassword db uid gen s p).concepts = db.concepts ∧
      (Orig.setUserPassword db uid gen s p).concept_submissions = db.concept_submissions ∧
      (Orig.setUserPassword db uid gen s p).tam_dictionaries = db.tam_dictionaries ∧
      (Orig.setUserPassword db uid gen s p).tam_submissions = db.tam_submissions ∧
      (Orig.setUserPassword db uid gen s p).segment_feedbacks = db.segment_feedbacks ∧
      ∀ w ∈ db.users, w.id ≠ uid → w ∈ (Orig.setUserPassword db uid gen s p).users) ∧
    (∀ (u : Opt.User) (s p : String),
      (u.set_password gen s p).id = u.id ∧
      (u.set_password gen s p).name = u.name ∧
      (u.set_password gen s p).email = u.email ∧
      (u.set_password gen s p).role = u.role ∧
      (u.set_password gen s p).languages = u.languages ∧
      (u.set_password gen s p).organization = u.organization ∧
      (u.set_password gen s p).status = u.status ∧
      (u.set_password gen s p).otp = u.otp ∧
      (u.set_password gen s p).otp_expiration = u.otp_expiration ∧
      (u.set_password gen s p).created_at = u.created_at ∧
      (u.set_password gen s p).updated_at = u.updated_at ∧
      (u.set_password gen s p).password_hash = gen s p ∧
      (u.set_password gen s p).password_hash ≠ p) ∧
    (∀ (db : Opt.DB) (uid : Nat) (s p : String),
      (Opt.setUserPassword db uid gen s p).projects = db.projects ∧
      (Opt.setUserPassword db uid gen s p).segment_feedbacks = db.segment_feedbacks ∧
      ∀ w ∈ db.users, w.id ≠ uid → w ∈ (Opt.setUserPassword db uid gen s p).users) := by
  intro gen hne
  refine ⟨?_, ?_, ?_, ?_⟩
  · intro u s p
    exact ⟨rfl, rfl, rfl, rfl, rfl, rfl, rfl, rfl, rfl, rfl, rfl, rfl, hne s p⟩
  · intro db uid s p
    refine ⟨rfl, rfl, rfl, rfl, rfl, rfl, rfl, rfl, rfl, rfl, rfl, rfl, rfl, rfl, rfl, rfl, ?_⟩
    intro w hw hwid
    refine List.mem_map.mpr ⟨w, hw, ?_⟩
    simp [hwid]
  · intro u s p
    exact ⟨rfl, rfl, rfl, rfl, rfl, rfl, rfl, rfl, rfl, rfl, rfl, rfl, hne s p⟩
  · intro db uid s p
    refine ⟨rfl, rfl, ?_⟩
    intro w hw hwid
    refine List.mem_map.mpr ⟨w, hw, ?_⟩
    simp [hwid]

/-- C5 (witness): with the model hash, setting user 1's password on a
concrete state changes neither the user's other fields, nor the other
tables, nor user 2's row, while the stored hash differs from the raw
input. -/
theorem claim_C5_witness :
    ((fxOUser 1).set_password modelGen "s" "pw").email = (fxOUser 1).email ∧
    ((fxOUser 1).set_password modelGen "s" "pw").password_hash ≠ "pw" ∧
    (Orig.setUserPassword c9OrigDB 1 modelGen "s" "pw").assignments =
      c9OrigDB.assignments ∧
    fxPUser 2 ∈ (Opt.setUserPassword c9OptDB 1 modelGen "s" "pw").users := by
  have h := claim_C5_set_password_frame modelGen modelGen_ne
  refine ⟨(h.1 (fxOUser 1) "s" "pw").2.2.1, (h.1 (fxOUser 1) "s" "pw").2.2.2.2.2.2.2.2.2.2.2.2,
    (h.2.1 c9OrigDB 1 "s" "pw").2.2.2.2.2.2.2.2.2.2.1, ?_⟩
  exact (h.2.2.2 c9OptDB 1 "s" "pw").2.2 (fxPUser 2) (by decide) (by decide)

/-- Binding to `UserRoleEnum` succeeds exactly on a declared value. -/
theorem userRole_ofString_spec (v : String) :
    (UserRoleEnum.ofString v).isSome = UserRoleEnum.values.contains v := by
  unfold UserRoleEnum.ofString UserRoleEnum.values
  repeat' split
  all_goals simp_all [List.contains_cons, beq_iff_eq]

/-- Binding to `UserStatusEnum` succeeds exactly on a declared value. -/
theorem userStatus_ofString_spec (v : String) :
    (UserStatusEnum.ofString v).isSome = UserStatusEnum.values.contains v := by
  unfold UserStatusEnum.ofString UserStatusEnum.values
  repeat' split
  all_goals simp_all [List.contains_cons, beq_iff_eq]

/-- Binding to `USRStatusEnum` succeeds exactly on a declared value. -/
theorem usrStatus_ofString_spec (v : String) :
    (USRStatusEnum.ofString v).isSome = USRStatusEnum.values.contains v := by
  unfold USRStatusEnum.ofString USRStatusEnum.values
  repeat' split
  all_goals simp_all [List.contains_cons, beq_iff_eq]

/-- Binding to `AnnotationStatusEnum` succeeds exactly on a declared value. -/
theorem annotationStatus_ofString_spec (v : String) :
    (AnnotationStatusEnum.ofString v).isSome = AnnotationStatusEnum.values.contains v := by
  unfold AnnotationStatusEnum.ofString AnnotationStatusEnum.values
  repeat' split
  all_goals simp_all [List.contains_cons, beq_iff_eq]

/-- Binding to `ValidationStatusEnum` succeeds exactly on a declared value. -/
theorem validationStatus_ofString_spec (v : String) :
    (ValidationStatusEnum.ofString v).isSome = ValidationStatusEnum.values.contains v := by
  unfold ValidationStatusEnum.ofString ValidationStatusEnum.values
  repeat' split
  all_goals simp_all [List.contains_cons, beq_iff_eq]

/-- Binding to `FeedbackStatusEnum` succeeds exactly on a declared value. -/
theorem feedbackStatus_ofString_spec (v : String) :
    (FeedbackStatusEnum.ofString v).isSome = FeedbackStatusEnum.values.contains v := by
  unfold FeedbackStatusEnum.ofString FeedbackStatusEnum.values
  repeat' split
  all_goals simp_all [List.contains_cons, beq_iff_eq]

/-- Binding to `FeedbackTypeEnum` succeeds exactly on a declared value. -/
theorem feedbackType_ofString_spec (v : String) :
    (FeedbackTypeEnum.ofString v).isSome = FeedbackTypeEnum.values.contains v := by
  unfold FeedbackTypeEnum.ofString FeedbackTypeEnum.values
  repeat' split
  all_goals simp_all [List.contains_cons, beq_iff_eq]

/-- C3: each of the eight status columns is a native enum in the optimized
schema, accepting a written string exactly when it is one of the declared
values (binding anything else fails), while the same column in the original
schema is a plain `String(50)` accepting every value. -/
theorem claim_C3_enum_columns :
    (colType OptCols.user "role" = some (.enumT UserRoleEnum.values) ∧
     colType OrigCols.user "role" = some (.varchar 50) ∧
     (∀ v, writeAccepted (.enumT UserRoleEnum.values) v = UserRoleEnum.values.contains v) ∧
     (∀ v, (UserRoleEnum.ofString v).isSome = UserRoleEnum.values.contains v)) ∧
    (colType OptCols.user "status" = some (.enumT UserStatusEnum.values) ∧
     colType OrigCols.user "status" = some (.varchar 50) ∧
     (∀ v, writeAccepted (.enumT UserStatusEnum.values) v = UserStatusEnum.values.contains v) ∧
     (∀ v, (UserStatusEnum.ofString v).isSome = UserStatusEnum.values.contains v)) ∧
    (colType OptCols.usr "status" = some (.enumT USRStatusEnum.values) ∧
     colType OrigCols.usr "status" = some (.varchar 50) ∧
     (∀ v, writeAccepted (.enumT USRStatusEnum.values) v = USRStatusEnum.values.contains v) ∧
     (∀ v, (USRStatusEnum.ofString v).isSome = USRStatusEnum.values.contains v)) ∧
    (colType OptCols.assignment "annotation_status" =
        some (.enumT AnnotationStatusEnum.values) ∧
     colType OrigCols.assignment "annotation_status" = some (.varchar 50) ∧
     (∀ v, writeAccepted (.enumT AnnotationStatusEnum.values) v =
        AnnotationStatusEnum.values.contains v) ∧
     (∀ v, (AnnotationStatusEnum.ofString v).isSome =
        AnnotationStatusEnum.values.contains v)) ∧
    (colType OptCols.concept_submission "validation_status" =
        some (.enumT ValidationStatusEnum.values) ∧
     colType OrigCols.concept_submission "validation_status" = some (.varchar 50) ∧
     colType OptCols.tam_submission "validation_status" =
        some (.enumT ValidationStatusEnum.values) ∧
     colType OrigCols.tam_submission "validation_status" = some (.varchar 50) ∧
     (∀ v, writeAccepted (.enumT ValidationStatusEnum.values) v =
        ValidationStatusEnum.values.contains v) ∧
     (∀ v, (ValidationStatusEnum.ofString v).isSome =
        ValidationStatusEnum.values.contains v)) ∧
    (colType OptCols.segment_feedback "feedback_type" =
        some (.enumT FeedbackTypeEnum.values) ∧
     colType OrigCols.segment_feedback "feedback_type" = some (.varchar 50) ∧
     (∀ v, writeAccepted (.enumT FeedbackTypeEnum.values) v =
        FeedbackTypeEnum.values.contains v) ∧
     (∀ v, (FeedbackTypeEnum.ofString v).isSome = FeedbackTypeEnum.values.contains v)) ∧
    (colType OptCols.segment_feedback "status" = some (.enumT FeedbackStatusEnum.values) ∧
     colType OrigCols.segment_feedback "status" = some (.varchar 50) ∧
     (∀ v, writeAccepted (.enumT FeedbackStatusEnum.values) v =
        FeedbackStatusEnum.values.contains v) ∧
     (∀ v, (FeedbackStatusEnum.ofString v).isSome =
        FeedbackStatusEnum.values.contains v)) ∧
    (∀ v, writeAccepted (.varchar 50) v = true) := by
  refine ⟨⟨by decide, by decide, fun v => rfl, userRole_ofString_spec⟩,
    ⟨by decide, by decide, fun v => rfl, userStatus_ofString_spec⟩,
    ⟨by decide, by decide, fun v => rfl, usrStatus_ofString_spec⟩,
    ⟨by decide, by decide, fun v => rfl, annotationStatus_ofString_spec⟩,
    ⟨by decide, by decide, by decide, by decide, fun v => rfl, validationStatus_ofString_spec⟩,
    ⟨by decide, by decide, fun v => rfl, feedbackType_ofString_spec⟩,
    ⟨by decide, by decide, fun v => rfl, feedbackStatus_ofString_spec⟩,
    fun v => rfl⟩

/-- C4 (counterexample): the `user` table is not a fragment table, yet its
`password_hash` column is `String(200)` in the original schema and
`String(256)` in the optimized one (and its `role`/`status` columns change
from plain strings to enums), so the fragment-table change is not the only
structural difference. -/
theorem claim_C4_counterexample :
    ("user", OrigCols.user, OptCols.user) ∈ nonFragmentTables ∧
    colType OrigCols.user "password_hash" = some (.varchar 200) ∧
    colType OptCols.user "password_hash" = some (.varchar 256) ∧
    ¬ nonFragmentTablesIdentical := by
  refine ⟨by decide, by decide, by decide, ?_⟩
  intro h
  have hu := h ("user", OrigCols.user, OptCols.user) (by decide)
  exact absurd hu (by decide)

/-- C4 (amended): between the two schema versions, the five fragment tables
lose exactly their `segment_id` column; every other table keeps the same
column names and nullability in the same order, and the only type changes
are `user.password_hash` (`String(200)` to `String(256)`) and the eight
status columns converted from `String(50)` to native enums; the remaining
six tables are column-for-column identical. -/
theorem claim_C4_structural_diff :
    (OptCols.lexical_info =
      OrigCols.lexical_info.filter (fun c => !(c.name == "segment_id")) ∧
     OptCols.dependency_info =
      OrigCols.dependency_info.filter (fun c => !(c.name == "segment_id")) ∧
     OptCols.discourse_coref_info =
      OrigCols.discourse_coref_info.filter (fun c => !(c.name == "segment_id")) ∧
     OptCols.construction_info =
      OrigCols.construction_info.filter (fun c => !(c.name == "segment_id")) ∧
     OptCols.sentence_type_info =
      OrigCols.sentence_type_info.filter (fun c => !(c.name == "segment_id"))) ∧
    (OrigCols.project = OptCols.project ∧
     OrigCols.chapter = OptCols.chapter ∧
     OrigCols.sentence = OptCols.sentence ∧
     OrigCols.segment = OptCols.segment ∧
     OrigCols.concept = OptCols.concept ∧
     OrigCols.tam_dictionary = OptCols.tam_dictionary) ∧
    (colNames OrigCols.user = colNames OptCols.user ∧
     colNullables OrigCols.user = colNullables OptCols.user ∧
     typeDiff OrigCols.user OptCols.user = ["password_hash", "role", "status"]) ∧
    (colNames OrigCols.usr = colNames OptCols.usr ∧
     colNullables OrigCols.usr = colNullables OptCols.usr ∧
     typeDiff OrigCols.usr OptCols.usr = ["status"]) ∧
    (colNames OrigCols.assignment = colNames OptCols.assignment ∧
     colNullables OrigCols.assignment = colNullables OptCols.assignment ∧
     typeDiff OrigCols.assignment OptCols.assignment = ["annotation_status"]) ∧
    (colNames OrigCols.concept_submission = colNames OptCols.concept_submission ∧
     colNullables OrigCols.concept_submission = colNullables OptCols.concept_submission ∧
     typeDiff OrigCols.concept_submission OptCols.concept_submission =
      ["validation_status"]) ∧
    (colNames OrigCols.tam_submission = colNames OptCols.tam_submission ∧
     colNullables OrigCols.tam_submission = colNullables OptCols.tam_submission ∧
     typeDiff OrigCols.tam_submission OptCols.tam_submission = ["validation_status"]) ∧
    (colNames OrigCols.segment_feedback = colNames OptCols.segment_feedback ∧
     colNullables OrigCols.segment_feedback = colNullables OptCols.segment_feedback ∧
     typeDiff OrigCols.segment_feedback OptCols.segment_feedback =
      ["feedback_type", "status"]) := by
  refine ⟨⟨by decide, by decide, by decide, by decide, by decide⟩,
    ⟨by decide, by decide, by decide, by decide, by decide, by decide⟩,
    ⟨by decide, by decide, by decide⟩, ⟨by decide, by decide, by decide⟩,
    ⟨by decide, by decide, by decide⟩, ⟨by decide, by decide, by decide⟩,
    ⟨by decide, by decide, by decide⟩, ⟨by decide, by decide, by decide⟩⟩

/-- C7 (counterexample): in the original schema `USR.status` is a plain
string and `USR.created_by` is nullable, so a state satisfying every
declared constraint holds a USR whose status is outside the three lifecycle
values and which no user owns. -/
theorem claim_C7_counterexample :
    Orig.wellFormed c7DB ∧
    fxOUSR 1 1 (some "Bogus") none ∈ c7DB.usrs ∧
    (fxOUSR 1 1 (some "Bogus") none).status ∉
      [some "Pending", some "Completed", some "Reviewed"] ∧
    (fxOUSR 1 1 (some "Bogus") none).created_by = none := by
  decide

/-- C7 (amended): a segment may carry any number of USR rows, each created
with the declared default status `Pending`; `created_by`, when set (it is
nullable), references an existing user in every well-formed state; and in
the optimized schema any non-null status is one of the three enum values
`Pending`, `Completed`, `Reviewed` — while the original schema stores the
status as an unconstrained string. -/
theorem claim_C7_usr_lifecycle :
    (∀ v : USRStatusEnum, v = .Pending ∨ v = .Completed ∨ v = .Reviewed) ∧
    (∀ (i gid : Nat) (creator : Option Nat) (now : Nat),
      (Orig.newUSR i gid creator now).status = some "Pending" ∧
      (Opt.newUSR i gid creator now).status = some USRStatusEnum.Pending) ∧
    (∀ db : Orig.DB, Orig.wellFormed db → ∀ u ∈ db.usrs, ∀ i,
      u.created_by = some i → ∃ w ∈ db.users, w.id = i) ∧
    (∀ db : Opt.DB, Opt.wellFormed db → ∀ u ∈ db.usrs, ∀ i,
      u.created_by = some i → ∃ w ∈ db.users, w.id = i) ∧
    (∀ (db : Orig.DB) (u : Orig.USR), (Orig.insertUSR db u).isSome = true ↔
      ((∃ g ∈ db.segments, g.id = u.segment_id) ∧
        ∀ i ∈ u.created_by.toList, ∃ w ∈ db.users, w.id = i)) ∧
    (∀ (db : Opt.DB) (u : Opt.USR), (Opt.insertUSR db u).isSome = true ↔
      ((∃ g ∈ db.segments, g.id = u.segment_id) ∧
        ∀ i ∈ u.created_by.toList, ∃ w ∈ db.users, w.id = i)) := by
  refine ⟨?_, ?_, ?_, ?_, ?_, ?_⟩
  · intro v
    cases v
    · exact Or.inl rfl
    · exact Or.inr (Or.inl rfl)
    · exact Or.inr (Or.inr rfl)
  · intro i gid creator now
    exact ⟨rfl, rfl⟩
  · intro db hwf u hu i hcb
    refine (hwf.2.2.2.1 u hu).2 i ?_
    rw [hcb]
    simp
  · intro db hwf u hu i hcb
    refine (hwf.2.2.2.1 u hu).2 i ?_
    rw [hcb]
    simp
  · intro db u
    by_cases hc : (∃ g ∈ db.segments, g.id = u.segment_id) ∧
        ∀ i ∈ u.created_by.toList, ∃ w ∈ db.users, w.id = i
    · simp [Orig.insertUSR, hc]
    · simp [Orig.insertUSR, hc]
  · intro db u
    by_cases hc : (∃ g ∈ db.segments, g.id = u.segment_id) ∧
        ∀ i ∈ u.created_by.toList, ∃ w ∈ db.users, w.id = i
    · simp [Opt.insertUSR, hc]
    · simp [Opt.insertUSR, hc]

/-- C7 (witness): the default rows carry status `Pending`; a second USR
inserts fine on a segment that already has one; and on a concrete
well-formed state the creator of USR 1 exists. -/
theorem claim_C7_witness :
    (Orig.newUSR 5 1 (some 1) 0).status = some "Pending" ∧
    (Opt.newUSR 5 1 (some 1) 0).status = some USRStatusEnum.Pending ∧
    (Opt.insertUSR c7OptDB (fxPUSR 2 1 none none)).isSome = true ∧
    c1OrigDB.users ≠ [] := by
  have h := claim_C7_usr_lifecycle
  refine ⟨(h.2.1 5 1 (some 1) 0).1, (h.2.1 5 1 (some 1) 0).2, ?_, ?_⟩
  · exact (h.2.2.2.2.2 c7OptDB (fxPUSR 2 1 none none)).mpr (by decide)
  · obtain ⟨w, hw, -⟩ := h.2.2.1 c1OrigDB (by decide)
      (fxOUSR 1 1 (some "Pending") (some 1)) (by decide) 1 rfl
    intro hnil
    rw [hnil] at hw
    exact absurd hw (by simp)

/-- C10 (witness): on concrete states whose only segment carries one
feedback row, the segment delete fails in both schema versions. -/
theorem claim_C10_witness :
    Orig.deleteSegment c1BadDB 1 = none ∧ Opt.deleteSegment c10OptDB 1 = none := by
  constructor
  · exact claim_C10_feedback_blocks.1 c1BadDB 1 (by decide) (by decide)
  · exact claim_C10_feedback_blocks.2 c10OptDB 1 (by decide) (by decide)

/-- A false `any` over a list gives falsity pointwise. -/
theorem any_false {α : Type} {l : List α} {p : α → Bool} (h : l.any p = false) :
    ∀ x ∈ l, p x = false := by
  rw [List.any_eq_false] at h
  intro x hx
  cases hp : p x
  · rfl
  · exact absurd hp (by simpa using h x hx)

/-- A false `any` over a filtered list gives falsity on matching elements. -/
theorem any_filter_false {α : Type} {l : List α} {q p : α → Bool}
    (h : (l.filter q).any p = false) : ∀ x ∈ l, q x = true → p x = false := by
  intro x hx hq
  exact any_false h x (List.mem_filter.mpr ⟨hx, hq⟩)

namespace Orig

/-- A surviving chapter's parent project is not targeted. -/
theorem chGoneB_false_proj {db : DB} {d : DelSpec} {c : Chapter}
    (hcg : chGoneB db d c = false) {p : Project} (hp : p ∈ db.projects)
    (hpe : p.id = c.project_id) : d.pP p = false := by
  unfold chGoneB at hcg
  have h2 := (Bool.or_eq_false_iff.mp hcg).2
  cases hdp : d.pP p
  · rfl
  · have h3 := any_filter_false h2 p hp hdp
    rw [hpe] at h3
    simp at h3

/-- A surviving sentence's parent chapter is not removed. -/
theorem senGoneB_false_ch {db : DB} {d : DelSpec} {s : Sentence}
    (hsg : senGoneB db d s = false) {c : Chapter} (hc : c ∈ db.chapters)
    (hce : c.id = s.chapter_id) : chGoneB db d c = false := by
  unfold senGoneB at hsg
  have h2 := (Bool.or_eq_false_iff.mp hsg).2
  cases hdc : chGoneB db d c
  · rfl
  · have h3 := any_filter_false h2 c hc hdc
    rw [hce] at h3
    simp at h3

/-- A surviving segment's parent sentence is not removed. -/
theorem segGoneB_false_sen {db : DB} {d : DelSpec} {g : Segment}
    (hgg : segGoneB db d g = false) {s : Sentence} (hs : s ∈ db.sentences)
    (hse : s.id = g.sentence_id) : senGoneB db d s = false := by
  unfold segGoneB at hgg
  have h2 := (Bool.or_eq_false_iff.mp hgg).2
  cases hds : senGoneB db d s
  · rfl
  · have h3 := any_filter_false h2 s hs hds
    rw [hse] at h3
    simp at h3

/-- A segment whose id survives is not removed. -/
theorem segIdGoneB_false {db : DB} {d : DelSpec} {i : Nat}
    (h : segIdGoneB db d i = false) {g : Segment} (hg : g ∈ db.segments)
    (hge : g.id = i) : segGoneB db d g = false := by
  unfold segIdGoneB at h
  cases hds : segGoneB db d g
  · rfl
  · have h3 := any_filter_false h g hg hds
    rw [hge] at h3
    simp at h3

/-- A USR whose id survives is not removed. -/
theorem usrIdGoneB_false {db : DB} {d : DelSpec} {i : Nat}
    (h : usrIdGoneB db d i = false) {u : USR} (hu : u ∈ db.usrs)
    (hue : u.id = i) : usrGoneB db d u = false := by
  unfold usrIdGoneB at h
  cases hds : usrGoneB db d u
  · rfl
  · have h3 := any_filter_false h u hu hds
    rw [hue] at h3
    simp at h3

end Orig

namespace Orig

/-- A successful hierarchy delete preserves referential integrity in the
original schema. -/
theorem removeHier_wf (db : DB) (d : DelSpec) (db' : DB)
    (hwf : wellFormed db) (h : removeHier db d = some db') : wellFormed db' := by
  obtain ⟨h1, h2, h3, h4, h5, h6, h7, h8, h9, h10, h11, h12, h13⟩ := hwf
  unfold removeHier at h
  split at h
  · exact absurd h (by simp)
  rename_i hbn
  have hbf : hierBlocked db d = false := by simpa using hbn
  unfold hierBlocked at hbf
  rw [Bool.or_eq_false_iff] at hbf
  obtain ⟨hbf4, hbFb⟩ := hbf
  rw [Bool.or_eq_false_iff] at hbf4
  obtain ⟨hbf3, hbCx⟩ := hbf4
  rw [Bool.or_eq_false_iff] at hbf3
  obtain ⟨hbf2, hbDs⟩ := hbf3
  rw [Bool.or_eq_false_iff] at hbf2
  obtain ⟨hbLx, hbDp⟩ := hbf2
  rw [Option.some_inj] at h
  subst h
  refine ⟨?_, ?_, ?_, ?_, ?_, ?_, ?_, ?_, ?_, ?_, ?_, ?_, ?_⟩
  · intro c hc
    rw [List.mem_filter] at hc
    obtain ⟨hcm, hck⟩ := hc
    have hcg : chGoneB db d c = false := by simpa using hck
    obtain ⟨p, hp, hpe⟩ := h1 c hcm
    exact ⟨p, List.mem_filter.mpr ⟨hp, by simp [chGoneB_false_proj hcg hp hpe]⟩, hpe⟩
  · intro s hs
    rw [List.mem_filter] at hs
    obtain ⟨hsm, hsk⟩ := hs
    have hsg : senGoneB db d s = false := by simpa using hsk
    obtain ⟨c, hc, hce⟩ := h2 s hsm
    exact ⟨c, List.mem_filter.mpr ⟨hc, by simp [senGoneB_false_ch hsg hc hce]⟩, hce⟩
  · intro g hg
    rw [List.mem_filter] at hg
    obtain ⟨hgm, hgk⟩ := hg
    have hgg : segGoneB db d g = false := by simpa using hgk
    obtain ⟨s, hs, hse⟩ := h3 g hgm
    exact ⟨s, List.mem_filter.mpr ⟨hs, by simp [segGoneB_false_sen hgg hs hse]⟩, hse⟩
  · intro u hu
    rw [List.mem_filter] at hu
    obtain ⟨hum, huk⟩ := hu
    have hug : usrGoneB db d u = false := by simpa using huk
    unfold usrGoneB at hug
    obtain ⟨⟨g, hg, hge⟩, hcr⟩ := h4 u hum
    exact ⟨⟨g, List.mem_filter.mpr ⟨hg, by simp [segIdGoneB_false hug hg hge]⟩, hge⟩, hcr⟩
  · intro x hx
    rw [List.mem_filter] at hx
    obtain ⟨hxm, hxk⟩ := hx
    have hux : usrIdGoneB db d x.usr_id = false := by simpa using hxk
    obtain ⟨⟨u, hu, hue⟩, g, hg, hge⟩ := h5 x hxm
    have hxb := any_false hbLx x hxm
    rw [hux] at hxb
    simp only [Bool.not_false, Bool.true_and] at hxb
    exact ⟨⟨u, List.mem_filter.mpr ⟨hu, by simp [usrIdGoneB_false hux hu hue]⟩, hue⟩,
      g, List.mem_filter.mpr ⟨hg, by simp [segIdGoneB_false hxb hg hge]⟩, hge⟩
  · intro x hx
    rw [List.mem_filter] at hx
    obtain ⟨hxm, hxk⟩ := hx
    have hux : usrIdGoneB db d x.usr_id = false := by simpa using hxk
    obtain ⟨⟨u, hu, hue⟩, g, hg, hge⟩ := h6 x hxm
    have hxb := any_false hbDp x hxm
    rw [hux] at hxb
    simp only [Bool.not_false, Bool.true_and] at hxb
    exact ⟨⟨u, List.mem_filter.mpr ⟨hu, by simp [usrIdGoneB_false hux hu hue]⟩, hue⟩,
      g, List.mem_filter.mpr ⟨hg, by simp [segIdGoneB_false hxb hg hge]⟩, hge⟩
  · intro x hx
    rw [List.mem_filter] at hx
    obtain ⟨hxm, hxk⟩ := hx
    have hux : usrIdGoneB db d x.usr_id = false := by simpa using hxk
    obtain ⟨⟨u, hu, hue⟩, g, hg, hge⟩ := h7 x hxm
    have hxb := any_false hbDs x hxm
    rw [hux] at hxb
    simp only [Bool.not_false, Bool.true_and] at hxb
    exact ⟨⟨u, List.mem_filter.mpr ⟨hu, by simp [usrIdGoneB_false hux hu hue]⟩, hue⟩,
      g, List.mem_filter.mpr ⟨hg, by simp [segIdGoneB_false hxb hg hge]⟩, hge⟩
  · intro x hx
    rw [List.mem_filter] at hx
    obtain ⟨hxm, hxk⟩ := hx
    have hux : usrIdGoneB db d x.usr_id = false := by simpa using hxk
    obtain ⟨⟨u, hu, hue⟩, g, hg, hge⟩ := h8 x hxm
    have hxb := any_false hbCx x hxm
    rw [hux] at hxb
    simp only [Bool.not_false, Bool.true_and] at hxb
    exact ⟨⟨u, List.mem_filter.mpr ⟨hu, by simp [usrIdGoneB_false hux hu hue]⟩, hue⟩,
      g, List.mem_filter.mpr ⟨hg, by simp [segIdGoneB_false hxb hg hge]⟩, hge⟩
  · intro x hx
    rw [List.mem_filter] at hx
    obtain ⟨hxm, hxk⟩ := hx
    have hxk2 : (usrIdGoneB db d x.usr_id || segIdGoneB db d x.segment_id) = false := by
      simpa using hxk
    obtain ⟨hu0, hg0⟩ := Bool.or_eq_false_iff.mp hxk2
    obtain ⟨⟨u, hu, hue⟩, g, hg, hge⟩ := h9 x hxm
    exact ⟨⟨u, List.mem_filter.mpr ⟨hu, by simp [usrIdGoneB_false hu0 hu hue]⟩, hue⟩,
      g, List.mem_filter.mpr ⟨hg, by simp [segIdGoneB_false hg0 hg hge]⟩, hge⟩
  · intro a ha
    rw [List.mem_filter] at ha
    obtain ⟨ham, hak⟩ := ha
    have hag : segIdGoneB db d a.segment_id = false := by simpa using hak
    obtain ⟨⟨g, hg, hge⟩, hann, hrev⟩ := h10 a ham
    exact ⟨⟨g, List.mem_filter.mpr ⟨hg, by simp [segIdGoneB_false hag hg hge]⟩, hge⟩,
      hann, hrev⟩
  · exact h11
  · exact h12
  · intro f hf
    obtain ⟨⟨g, hg, hge⟩, hann⟩ := h13 f hf
    have hfg := any_false hbFb f hf
    exact ⟨⟨g, List.mem_filter.mpr ⟨hg, by simp [segIdGoneB_false hfg hg hge]⟩, hge⟩, hann⟩

end Orig

namespace Opt

/-- A surviving chapter's parent project is not targeted. -/
theorem chGoneB_false_proj_opt {db : DB} {d : DelSpec} {c : Chapter}
    (hcg : chGoneB db d c = false) {p : Project} (hp : p ∈ db.projects)
    (hpe : p.id = c.project_id) : d.pP p = false := by
  unfold chGoneB at hcg
  have h2 := (Bool.or_eq_false_iff.mp hcg).2
  cases hdp : d.pP p
  · rfl
  · have h3 := any_filter_false h2 p hp hdp
    rw [hpe] at h3
    simp at h3

/-- A surviving sentence's parent chapter is not removed. -/
theorem senGoneB_false_ch_opt {db : DB} {d : DelSpec} {s : Sentence}
    (hsg : senGoneB db d s = false) {c : Chapter} (hc : c ∈ db.chapters)
    (hce : c.id = s.chapter_id) : chGoneB db d c = false := by
  unfold senGoneB at hsg
  have h2 := (Bool.or_eq_false_iff.mp hsg).2
  cases hdc : chGoneB db d c
  · rfl
  · have h3 := any_filter_false h2 c hc hdc
    rw [hce] at h3
    simp at h3

/-- A surviving segment's parent sentence is not removed. -/
theorem segGoneB_false_sen_opt {db : DB} {d : DelSpec} {g : Segment}
    (hgg : segGoneB db d g = false) {s : Sentence} (hs : s ∈ db.sentences)
    (hse : s.id = g.sentence_id) : senGoneB db d s = false := by
  unfold segGoneB at hgg
  have h2 := (Bool.or_eq_false_iff.mp hgg).2
  cases hds : senGoneB db d s
  · rfl
  · have h3 := any_filter_false h2 s hs hds
    rw [hse] at h3
    simp at h3

/-- A segment whose id survives is not removed. -/
theorem segIdGoneB_false_opt {db : DB} {d : DelSpec} {i : Nat}
    (h : segIdGoneB db d i = false) {g : Segment} (hg : g ∈ db.segments)
    (hge : g.id = i) : segGoneB db d g = false := by
  unfold segIdGoneB at h
  cases hds : segGoneB db d g
  · rfl
  · have h3 := any_filter_false h g hg hds
    rw [hge] at h3
    simp at h3

/-- A USR whose id survives is not removed. -/
theorem usrIdGoneB_false_opt {db : DB} {d : DelSpec} {i : Nat}
    (h : usrIdGoneB db d i = false) {u : USR} (hu : u ∈ db.usrs)
    (hue : u.id = i) : usrGoneB db d u = false := by
  unfold usrIdGoneB at h
  cases hds : usrGoneB db d u
  · rfl
  · have h3 := any_filter_false h u hu hds
    rw [hue] at h3
    simp at h3

/-- A successful hierarchy delete preserves referential integrity in the
optimized schema. -/
theorem removeHier_wf_opt (db : DB) (d : DelSpec) (db' : DB)
    (hwf : wellFormed db) (h : removeHier db d = some db') : wellFormed db' := by
  obtain ⟨h1, h2, h3, h4, h5, h6, h7, h8, h9, h10, h11, h12, h13⟩ := hwf
  unfold removeHier at h
  split at h
  · exact absurd h (by simp)
  rename_i hbn
  have hbf : hierBlocked db d = false := by simpa using hbn
  unfold hierBlocked at hbf
  rw [Option.some_inj] at h
  subst h
  refine ⟨?_, ?_, ?_, ?_, ?_, ?_, ?_, ?_, ?_, ?_, ?_, ?_, ?_⟩
  · intro c hc
    rw [List.mem_filter] at hc
    obtain ⟨hcm, hck⟩ := hc
    have hcg : chGoneB db d c = false := by simpa using hck
    obtain ⟨p, hp, hpe⟩ := h1 c hcm
    exact ⟨p, List.mem_filter.mpr ⟨hp, by simp [chGoneB_false_proj_opt hcg hp hpe]⟩, hpe⟩
  · intro s hs
    rw [List.mem_filter] at hs
    obtain ⟨hsm, hsk⟩ := hs
    have hsg : senGoneB db d s = false := by simpa using hsk
    obtain ⟨c, hc, hce⟩ := h2 s hsm
    exact ⟨c, List.mem_filter.mpr ⟨hc, by simp [senGoneB_false_ch_opt hsg hc hce]⟩, hce⟩
  · intro g hg
    rw [List.mem_filter] at hg
    obtain ⟨hgm, hgk⟩ := hg
    have hgg : segGoneB db d g = false := by simpa using hgk
    obtain ⟨s, hs, hse⟩ := h3 g hgm
    exact ⟨s, List.mem_filter.mpr ⟨hs, by simp [segGoneB_false_sen_opt hgg hs hse]⟩, hse⟩
  · intro u hu
    rw [List.mem_filter] at hu
    obtain ⟨hum, huk⟩ := hu
    have hug : usrGoneB db d u = false := by simpa using huk
    unfold usrGoneB at hug
    obtain ⟨⟨g, hg, hge⟩, hcr⟩ := h4 u hum
    exact ⟨⟨g, List.mem_filter.mpr ⟨hg, by simp [segIdGoneB_false_opt hug hg hge]⟩, hge⟩, hcr⟩
  · intro x hx
    rw [List.mem_filter] at hx
    obtain ⟨hxm, hxk⟩ := hx
    have hux : usrIdGoneB db d x.usr_id = false := by simpa using hxk
    obtain ⟨u, hu, hue⟩ := h5 x hxm
    exact ⟨u, List.mem_filter.mpr ⟨hu, by simp [usrIdGoneB_false_opt hux hu hue]⟩, hue⟩
  · intro x hx
    rw [List.mem_filter] at hx
    obtain ⟨hxm, hxk⟩ := hx
    have hux : usrIdGoneB db d x.usr_id = false := by simpa using hxk
    obtain ⟨u, hu, hue⟩ := h6 x hxm
    exact ⟨u, List.mem_filter.mpr ⟨hu, by simp [usrIdGoneB_false_opt hux hu hue]⟩, hue⟩
  · intro x hx
    rw [List.mem_filter] at hx
    obtain ⟨hxm, hxk⟩ := hx
    have hux : usrIdGoneB db d x.usr_id = false := by simpa using hxk
    obtain ⟨u, hu, hue⟩ := h7 x hxm
    exact ⟨u, List.mem_filter.mpr ⟨hu, by simp [usrIdGoneB_false_opt hux hu hue]⟩, hue⟩
  · intro x hx
    rw [List.mem_filter] at hx
    obtain ⟨hxm, hxk⟩ := hx
    have hux : usrIdGoneB db d x.usr_id = false := by simpa using hxk
    obtain ⟨u, hu, hue⟩ := h8 x hxm
    exact ⟨u, List.mem_filter.mpr ⟨hu, by simp [usrIdGoneB_false_opt hux hu hue]⟩, hue⟩
  · intro x hx
    rw [List.mem_filter] at hx
    obtain ⟨hxm, hxk⟩ := hx
    have hux : usrIdGoneB db d x.usr_id = false := by simpa using hxk
    obtain ⟨u, hu, hue⟩ := h9 x hxm
    exact ⟨u, List.mem_filter.mpr ⟨hu, by simp [usrIdGoneB_false_opt hux hu hue]⟩, hue⟩
  · intro a ha
    rw [List.mem_filter] at ha
    obtain ⟨ham, hak⟩ := ha
    have hag : segIdGoneB db d a.segment_id = false := by simpa using hak
    obtain ⟨⟨g, hg, hge⟩, hann, hrev⟩ := h10 a ham
    exact ⟨⟨g, List.mem_filter.mpr ⟨hg, by simp [segIdGoneB_false_opt hag hg hge]⟩, hge⟩,
      hann, hrev⟩
  · exact h11
  · exact h12
  · intro f hf
    obtain ⟨⟨g, hg, hge⟩, hann⟩ := h13 f hf
    have hfg := any_false hbf f hf
    exact ⟨⟨g, List.mem_filter.mpr ⟨hg, by simp [segIdGoneB_false_opt hfg hg hge]⟩, hge⟩, hann⟩

end Opt

/-- Membership in an option's list form means the option holds the value. -/
theorem mem_toList_eq {i : Nat} {o : Option Nat} (h : i ∈ o.toList) : o = some i := by
  cases o
  · simp at h
  · simp at h
    simp [h]

/-- A bounded existential survives consing a new head. -/
theorem exists_mem_cons {α : Type} {l : List α} {a : α} {P : α → Prop}
    (h : ∃ x ∈ l, P x) : ∃ x ∈ a :: l, P x := by
  obtain ⟨x, hx, hp⟩ := h
  exact ⟨x, List.mem_cons_of_mem _ hx, hp⟩

namespace Orig

/-- A successful user delete preserves referential integrity in the original
schema. -/
theorem deleteUser_wf (db : DB) (uid : Nat) (db' : DB) (hwf : wellFormed db)
    (h : deleteUser db uid = some db') : wellFormed db' := by
  obtain ⟨h1, h2, h3, h4, h5, h6, h7, h8, h9, h10, h11, h12, h13⟩ := hwf
  simp only [deleteUser] at h
  split at h
  · exact absurd h (by simp)
  rename_i hbn
  have hbf := (Bool.not_eq_true _).mp hbn
  rw [Bool.or_eq_false_iff] at hbf
  obtain ⟨hbf3, hFb⟩ := hbf
  rw [Bool.or_eq_false_iff] at hbf3
  obtain ⟨hbf2, hTs⟩ := hbf3
  rw [Bool.or_eq_false_iff] at hbf2
  obtain ⟨hUs, hCs⟩ := hbf2
  rw [Option.some_inj] at h
  subst h
  have userSurv : ∀ i, i ≠ uid → ∀ w ∈ db.users, w.id = i →
      ∃ w' ∈ db.users.filter (fun w => !(w.id == uid)), w'.id = i := by
    intro i hne w hw hwe
    exact ⟨w, List.mem_filter.mpr ⟨hw, by simp [hwe, hne]⟩, hwe⟩
  refine ⟨h1, h2, h3, ?_, h5, h6, h7, h8, h9, ?_, ?_, ?_, ?_⟩
  · intro u hu
    obtain ⟨hseg, hcr⟩ := h4 u hu
    refine ⟨hseg, ?_⟩
    intro i hi
    obtain ⟨w, hw, hwe⟩ := hcr i hi
    have hcb := mem_toList_eq hi
    have hne : i ≠ uid := by
      intro he
      have hb := any_false hUs u hu
      rw [hcb, he] at hb
      simp at hb
    exact userSurv i hne w hw hwe
  · intro a ha
    rw [List.mem_filter] at ha
    obtain ⟨ham, hak⟩ := ha
    have hak2 : (a.annotator_id == uid || a.reviewer_id == some uid) = false := by
      simpa using hak
    obtain ⟨hann0, hrev0⟩ := Bool.or_eq_false_iff.mp hak2
    obtain ⟨hseg, ⟨w, hw, hwe⟩, hrev⟩ := h10 a ham
    refine ⟨hseg, userSurv a.annotator_id (by simpa using hann0) w hw hwe, ?_⟩
    intro i hi
    obtain ⟨w', hw', hwe'⟩ := hrev i hi
    have hcb := mem_toList_eq hi
    have hne : i ≠ uid := by
      intro he
      rw [hcb, he] at hrev0
      simp at hrev0
    exact userSurv i hne w' hw' hwe'
  · intro cs hcs
    have hb := any_false hCs cs hcs
    obtain ⟨hsb0, hvb0⟩ := Bool.or_eq_false_iff.mp hb
    obtain ⟨hsub, hval⟩ := h11 cs hcs
    constructor
    · intro i hi
      obtain ⟨w, hw, hwe⟩ := hsub i hi
      have hcb := mem_toList_eq hi
      have hne : i ≠ uid := by
        intro he
        rw [hcb, he] at hsb0
        simp at hsb0
      exact userSurv i hne w hw hwe
    · intro i hi
      obtain ⟨w, hw, hwe⟩ := hval i hi
      have hcb := mem_toList_eq hi
      have hne : i ≠ uid := by
        intro he
        rw [hcb, he] at hvb0
        simp at hvb0
      exact userSurv i hne w hw hwe
  · intro ts hts
    have hb := any_false hTs ts hts
    obtain ⟨hsb0, hvb0⟩ := Bool.or_eq_false_iff.mp hb
    obtain ⟨hsub, hval⟩ := h12 ts hts
    constructor
    · intro i hi
      obtain ⟨w, hw, hwe⟩ := hsub i hi
      have hcb := mem_toList_eq hi
      have hne : i ≠ uid := by
        intro he
        rw [hcb, he] at hsb0
        simp at hsb0
      exact userSurv i hne w hw hwe
    · intro i hi
      obtain ⟨w, hw, hwe⟩ := hval i hi
      have hcb := mem_toList_eq hi
      have hne : i ≠ uid := by
        intro he
        rw [hcb, he] at hvb0
        simp at hvb0
      exact userSurv i hne w hw hwe
  · intro f hf
    have hb := any_false hFb f hf
    obtain ⟨hseg, w, hw, hwe⟩ := h13 f hf
    exact ⟨hseg, userSurv f.annotator_id (by simpa using hb) w hw hwe⟩

/-- A USR delete preserves referential integrity in the original schema. -/
theorem deleteUSR_wf (db : DB) (uid : Nat) (db' : DB) (hwf : wellFormed db)
    (h : deleteUSR db uid = some db') : wellFormed db' := by
  obtain ⟨h1, h2, h3, h4, h5, h6, h7, h8, h9, h10, h11, h12, h13⟩ := hwf
  simp only [deleteUSR] at h
  rw [Option.some_inj] at h
  subst h
  have usrSurv : ∀ x ∈ db.usrs.filter (fun u => !(u.id == uid)), x ∈ db.usrs :=
    fun x hx => (List.mem_filter.mp hx).1
  have fragUsr : ∀ i, i ≠ uid → (∃ u ∈ db.usrs, u.id = i) →
      ∃ u ∈ db.usrs.filter (fun u => !(u.id == uid)), u.id = i := by
    rintro i hne ⟨u, hu, hue⟩
    exact ⟨u, List.mem_filter.mpr ⟨hu, by simp [hue, hne]⟩, hue⟩
  refine ⟨h1, h2, h3, ?_, ?_, ?_, ?_, ?_, ?_, h10, h11, h12, h13⟩
  · intro u hu
    exact h4 u (usrSurv u hu)
  · intro x hx
    rw [List.mem_filter] at hx
    obtain ⟨hxm, hxk⟩ := hx
    obtain ⟨hu, hg⟩ := h5 x hxm
    exact ⟨fragUsr x.usr_id (by simpa using hxk) hu, hg⟩
  · intro x hx
    rw [List.mem_filter] at hx
    obtain ⟨hxm, hxk⟩ := hx
    obtain ⟨hu, hg⟩ := h6 x hxm
    exact ⟨fragUsr x.usr_id (by simpa using hxk) hu, hg⟩
  · intro x hx
    rw [List.mem_filter] at hx
    obtain ⟨hxm, hxk⟩ := hx
    obtain ⟨hu, hg⟩ := h7 x hxm
    exact ⟨fragUsr x.usr_id (by simpa using hxk) hu, hg⟩
  · intro x hx
    rw [List.mem_filter] at hx
    obtain ⟨hxm, hxk⟩ := hx
    obtain ⟨hu, hg⟩ := h8 x hxm
    exact ⟨fragUsr x.usr_id (by simpa using hxk) hu, hg⟩
  · intro x hx
    rw [List.mem_filter] at hx
    obtain ⟨hxm, hxk⟩ := hx
    obtain ⟨hu, hg⟩ := h9 x hxm
    exact ⟨fragUsr x.usr_id (by simpa using hxk) hu, hg⟩

end Orig

namespace Opt

/-- A successful user delete preserves referential integrity in the
optimized schema. -/
theorem deleteUser_wf_opt (db : DB) (uid : Nat) (db' : DB) (hwf : wellFormed db)
    (h : deleteUser db uid = some db') : wellFormed db' := by
  obtain ⟨h1, h2, h3, h4, h5, h6, h7, h8, h9, h10, h11, h12, h13⟩ := hwf
  simp only [deleteUser] at h
  split at h
  · exact absurd h (by simp)
  rename_i hbn
  have hbf := (Bool.not_eq_true _).mp hbn
  rw [Bool.or_eq_false_iff] at hbf
  obtain ⟨hbf3, hFb⟩ := hbf
  rw [Bool.or_eq_false_iff] at hbf3
  obtain ⟨hbf2, hTs⟩ := hbf3
  rw [Bool.or_eq_false_iff] at hbf2
  obtain ⟨hUs, hCs⟩ := hbf2
  rw [Option.some_inj] at h
  subst h
  have userSurv : ∀ i, i ≠ uid → ∀ w ∈ db.users, w.id = i →
      ∃ w' ∈ db.users.filter (fun w => !(w.id == uid)), w'.id = i := by
    intro i hne w hw hwe
    exact ⟨w, List.mem_filter.mpr ⟨hw, by simp [hwe, hne]⟩, hwe⟩
  refine ⟨h1, h2, h3, ?_, h5, h6, h7, h8, h9, ?_, ?_, ?_, ?_⟩
  · intro u hu
    obtain ⟨hseg, hcr⟩ := h4 u hu
    refine ⟨hseg, ?_⟩
    intro i hi
    obtain ⟨w, hw, hwe⟩ := hcr i hi
    have hcb := mem_toList_eq hi
    have hne : i ≠ uid := by
      intro he
      have hb := any_false hUs u hu
      rw [hcb, he] at hb
      simp at hb
    exact userSurv i hne w hw hwe
  · intro a ha
    rw [List.mem_filter] at ha
    obtain ⟨ham, hak⟩ := ha
    have hak2 : (a.annotator_id == uid || a.reviewer_id == some uid) = false := by
      simpa using hak
    obtain ⟨hann0, hrev0⟩ := Bool.or_eq_false_iff.mp hak2
    obtain ⟨hseg, ⟨w, hw, hwe⟩, hrev⟩ := h10 a ham
    refine ⟨hseg, userSurv a.annotator_id (by simpa using hann0) w hw hwe, ?_⟩
    intro i hi
    obtain ⟨w', hw', hwe'⟩ := hrev i hi
    have hcb := mem_toList_eq hi
    have hne : i ≠ uid := by
      intro he
      rw [hcb, he] at hrev0
      simp at hrev0
    exact userSurv i hne w' hw' hwe'
  · intro cs hcs
    have hb := any_false hCs cs hcs
    obtain ⟨hsb0, hvb0⟩ := Bool.or_eq_false_iff.mp hb
    obtain ⟨hsub, hval⟩ := h11 cs hcs
    constructor
    · intro i hi
      obtain ⟨w, hw, hwe⟩ := hsub i hi
      have hcb := mem_toList_eq hi
      have hne : i ≠ uid := by
        intro he
        rw [hcb, he] at hsb0
        simp at hsb0
      exact userSurv i hne w hw hwe
    · intro i hi
      obtain ⟨w, hw, hwe⟩ := hval i hi
      have hcb := mem_toList_eq hi
      have hne : i ≠ uid := by
        intro he
        rw [hcb, he] at hvb0
        simp at hvb0
      exact userSurv i hne w hw hwe
  · intro ts hts
    have hb := any_false hTs ts hts
    obtain ⟨hsb0, hvb0⟩ := Bool.or_eq_false_iff.mp hb
    obtain ⟨hsub, hval⟩ := h12 ts hts
    constructor
    · intro i hi
      obtain ⟨w, hw, hwe⟩ := hsub i hi
      have hcb := mem_toList_eq hi
      have hne : i ≠ uid := by
        intro he
        rw [hcb, he] at hsb0
        simp at hsb0
      exact userSurv i hne w hw hwe
    · intro i hi
      obtain ⟨w, hw, hwe⟩ := hval i hi
      have hcb := mem_toList_eq hi
      have hne : i ≠ uid := by
        intro he
        rw [hcb, he] at hvb0
        simp at hvb0
      exact userSurv i hne w hw hwe
  · intro f hf
    have hb := any_false hFb f hf
    obtain ⟨hseg, w, hw, hwe⟩ := h13 f hf
    exact ⟨hseg, userSurv f.annotator_id (by simpa using hb) w hw hwe⟩

/-- A USR delete preserves referential integrity in the optimized schema. -/
theorem deleteUSR_wf_opt (db : DB) (uid : Nat) (db' : DB) (hwf : wellFormed db)
    (h : deleteUSR db uid = some db') : wellFormed db' := by
  obtain ⟨h1, h2, h3, h4, h5, h6, h7, h8, h9, h10, h11, h12, h13⟩ := hwf
  simp only [deleteUSR] at h
  rw [Option.some_inj] at h
  subst h
  have usrSurv : ∀ x ∈ db.usrs.filter (fun u => !(u.id == uid)), x ∈ db.usrs :=
    fun x hx => (List.mem_filter.mp hx).1
  have fragUsr : ∀ i, i ≠ uid → (∃ u ∈ db.usrs, u.id = i) →
      ∃ u ∈ db.usrs.filter (fun u => !(u.id == uid)), u.id = i := by
    rintro i hne ⟨u, hu, hue⟩
    exact ⟨u, List.mem_filter.mpr ⟨hu, by simp [hue, hne]⟩, hue⟩
  refine ⟨h1, h2, h3, ?_, ?_, ?_, ?_, ?_, ?_, h10, h11, h12, h13⟩
  · intro u hu
    exact h4 u (usrSurv u hu)
  · intro x hx
    rw [List.mem_filter] at hx
    obtain ⟨hxm, hxk⟩ := hx
    exact fragUsr x.usr_id (by simpa using hxk) (h5 x hxm)
  · intro x hx
    rw [List.mem_filter] at hx
    obtain ⟨hxm, hxk⟩ := hx
    exact fragUsr x.usr_id (by simpa using hxk) (h6 x hxm)
  · intro x hx
    rw [List.mem_filter] at hx
    obtain ⟨hxm, hxk⟩ := hx
    exact fragUsr x.usr_id (by simpa using hxk) (h7 x hxm)
  · intro x hx
    rw [List.mem_filter] at hx
    obtain ⟨hxm, hxk⟩ := hx
    exact fragUsr x.usr_id (by simpa using hxk) (h8 x hxm)
  · intro x hx
    rw [List.mem_filter] at hx
    obtain ⟨hxm, hxk⟩ := hx
    exact fragUsr x.usr_id (by simpa using hxk) (h9 x hxm)

end Opt

namespace Orig

/-- Every schema operation of the original schema preserves referential
integrity. -/
theorem apply_wf (db : DB) (o : Op) (db' : DB) (hwf : wellFormed db)
    (h : apply db o = some db') : wellFormed db' := by
  obtain ⟨h1, h2, h3, h4, h5, h6, h7, h8, h9, h10, h11, h12, h13⟩ := hwf
  cases o with
  | insUser w =>
    simp only [apply, insertUser] at h
    rw [Option.some_inj] at h
    subst h
    refine ⟨h1, h2, h3, ?_, h5, h6, h7, h8, h9, ?_, ?_, ?_, ?_⟩
    · intro u hu
      obtain ⟨hseg, hcr⟩ := h4 u hu
      exact ⟨hseg, fun i hi => exists_mem_cons (hcr i hi)⟩
    · intro a ha
      obtain ⟨hseg, hann, hrev⟩ := h10 a ha
      exact ⟨hseg, exists_mem_cons hann, fun i hi => exists_mem_cons (hrev i hi)⟩
    · intro cs hcs
      obtain ⟨hsub, hval⟩ := h11 cs hcs
      exact ⟨fun i hi => exists_mem_cons (hsub i hi),
        fun i hi => exists_mem_cons (hval i hi)⟩
    · intro ts hts
      obtain ⟨hsub, hval⟩ := h12 ts hts
      exact ⟨fun i hi => exists_mem_cons (hsub i hi),
        fun i hi => exists_mem_cons (hval i hi)⟩
    · intro f hf
      obtain ⟨hseg, hann⟩ := h13 f hf
      exact ⟨hseg, exists_mem_cons hann⟩
  | insProject p =>
    simp only [apply, insertProject] at h
    rw [Option.some_inj] at h
    subst h
    refine ⟨?_, h2, h3, h4, h5, h6, h7, h8, h9, h10, h11, h12, h13⟩
    intro c hc
    exact exists_mem_cons (h1 c hc)
  | insChapter c =>
    simp only [apply, insertChapter] at h
    split at h
    · rename_i hcond
      rw [Option.some_inj] at h
      subst h
      refine ⟨?_, ?_, h3, h4, h5, h6, h7, h8, h9, h10, h11, h12, h13⟩
      · intro c' hc'
        rcases List.mem_cons.mp hc' with hceq | hcm
        · subst hceq
          exact hcond
        · exact h1 c' hcm
      · intro s hs
        exact exists_mem_cons (h2 s hs)
    · exact absurd h (by simp)
  | insSentence s =>
    simp only [apply, insertSentence] at h
    split at h
    · rename_i hcond
      rw [Option.some_inj] at h
      subst h
      refine ⟨h1, ?_, ?_, h4, h5, h6, h7, h8, h9, h10, h11, h12, h13⟩
      · intro s' hs'
        rcases List.mem_cons.mp hs' with hseq | hsm
        · subst hseq
          exact hcond
        · exact h2 s' hsm
      · intro g hg
        exact exists_mem_cons (h3 g hg)
    · exact absurd h (by simp)
  | insSegment g =>
    simp only [apply, insertSegment] at h
    split at h
    · rename_i hcond
      rw [Option.some_inj] at h
      subst h
      refine ⟨h1, h2, ?_, ?_, ?_, ?_, ?_, ?_, ?_, ?_, h11, h12, ?_⟩
      · intro g' hg'
        rcases List.mem_cons.mp hg' with hgeq | hgm
        · subst hgeq
          exact hcond
        · exact h3 g' hgm
      · intro u hu
        obtain ⟨hseg, hcr⟩ := h4 u hu
        exact ⟨exists_mem_cons hseg, hcr⟩
      · intro x hx
        obtain ⟨hu, hg2⟩ := h5 x hx
        exact ⟨hu, exists_mem_cons hg2⟩
      · intro x hx
        obtain ⟨hu, hg2⟩ := h6 x hx
        exact ⟨hu, exists_mem_cons hg2⟩
      · intro x hx
        obtain ⟨hu, hg2⟩ := h7 x hx
        exact ⟨hu, exists_mem_cons hg2⟩
      · intro x hx
        obtain ⟨hu, hg2⟩ := h8 x hx
        exact ⟨hu, exists_mem_cons hg2⟩
      · intro x hx
        obtain ⟨hu, hg2⟩ := h9 x hx
        exact ⟨hu, exists_mem_cons hg2⟩
      · intro a ha
        obtain ⟨hseg, hann, hrev⟩ := h10 a ha
        exact ⟨exists_mem_cons hseg, hann, hrev⟩
      · intro f hf
        obtain ⟨hseg, hann⟩ := h13 f hf
        exact ⟨exists_mem_cons hseg, hann⟩
    · exact absurd h (by simp)
  | insUSR u =>
    simp only [apply, insertUSR] at h
    split at h
    · rename_i hcond
      rw [Option.some_inj] at h
      subst h
      refine ⟨h1, h2, h3, ?_, ?_, ?_, ?_, ?_, ?_, h10, h11, h12, h13⟩
      · intro u' hu'
        rcases List.mem_cons.mp hu' with hueq | hum
        · subst hueq
          exact hcond
        · exact h4 u' hum
      · intro x hx
        obtain ⟨hu, hg⟩ := h5 x hx
        exact ⟨exists_mem_cons hu, hg⟩
      · intro x hx
        obtain ⟨hu, hg⟩ := h6 x hx
        exact ⟨exists_mem_cons hu, hg⟩
      · intro x hx
        obtain ⟨hu, hg⟩ := h7 x hx
        exact ⟨exists_mem_cons hu, hg⟩
      · intro x hx
        obtain ⟨hu, hg⟩ := h8 x hx
        exact ⟨exists_mem_cons hu, hg⟩
      · intro x hx
        obtain ⟨hu, hg⟩ := h9 x hx
        exact ⟨exists_mem_cons hu, hg⟩
    · exact absurd h (by simp)
  | insLexicalInfo x =>
    simp only [apply, insertLexicalInfo] at h
    split at h
    · rename_i hcond
      rw [Option.some_inj] at h
      subst h
      refine ⟨h1, h2, h3, h4, ?_, h6, h7, h8, h9, h10, h11, h12, h13⟩
      intro x' hx'
      rcases List.mem_cons.mp hx' with hxeq | hxm
      · subst hxeq
        exact hcond
      · exact h5 x' hxm
    · exact absurd h (by simp)
  | insDependencyInfo x =>
    simp only [apply, insertDependencyInfo] at h
    split at h
    · rename_i hcond
      rw [Option.some_inj] at h
      subst h
      refine ⟨h1, h2, h3, h4, h5, ?_, h7, h8, h9, h10, h11, h12, h13⟩
      intro x' hx'
      rcases List.mem_cons.mp hx' with hxeq | hxm
      · subst hxeq
        exact hcond
      · exact h6 x' hxm
    · exact absurd h (by simp)
  | insDiscourseCorefInfo x =>
    simp only [apply, insertDiscourseCorefInfo] at h
    split at h
    · rename_i hcond
      rw [Option.some_inj] at h
      subst h
      refine ⟨h1, h2, h3, h4, h5, h6, ?_, h8, h9, h10, h11, h12, h13⟩
      intro x' hx'
      rcases List.mem_cons.mp hx' with hxeq | hxm
      · subst hxeq
        exact hcond
      · exact h7 x' hxm
    · exact absurd h (by simp)
  | insConstructionInfo x =>
    simp only [apply, insertConstructionInfo] at h
    split at h
    · rename_i hcond
      rw [Option.some_inj] at h
      subst h
      refine ⟨h1, h2, h3, h4, h5, h6, h7, ?_, h9, h10, h11, h12, h13⟩
      intro x' hx'
      rcases List.mem_cons.mp hx' with hxeq | hxm
      · subst hxeq
        exact hcond
      · exact h8 x' hxm
    · exact absurd h (by simp)
  | insSentenceTypeInfo x =>
    simp only [apply, insertSentenceTypeInfo] at h
    split at h
    · rename_i hcond
      rw [Option.some_inj] at h
      subst h
      refine ⟨h1, h2, h3, h4, h5, h6, h7, h8, ?_, h10, h11, h12, h13⟩
      intro x' hx'
      rcases List.mem_cons.mp hx' with hxeq | hxm
      · subst hxeq
        exact hcond
      · exact h9 x' hxm
    · exact absurd h (by simp)
  | insAssignment a =>
    simp only [apply, insertAssignment] at h
    split at h
    · rename_i hcond
      rw [Option.some_inj] at h
      subst h
      refine ⟨h1, h2, h3, h4, h5, h6, h7, h8, h9, ?_, h11, h12, h13⟩
      intro a' ha'
      rcases List.mem_cons.mp ha' with haeq | ham
      · subst haeq
        exact hcond
      · exact h10 a' ham
    · exact absurd h (by simp)
  | insConcept c =>
    simp only [apply, insertConcept] at h
    rw [Option.some_inj] at h
    subst h
    exact ⟨h1, h2, h3, h4, h5, h6, h7, h8, h9, h10, h11, h12, h13⟩
  | insConceptSubmission cs =>
    simp only [apply, insertConceptSubmission] at h
    split at h
    · rename_i hcond
      rw [Option.some_inj] at h
      subst h
      refine ⟨h1, h2, h3, h4, h5, h6, h7, h8, h9, h10, ?_, h12, h13⟩
      intro cs' hcs'
      rcases List.mem_cons.mp hcs' with hcseq | hcsm
      · subst hcseq
        exact hcond
      · exact h11 cs' hcsm
    · exact absurd h (by simp)
  | insTamDictionary t =>
    simp only [apply, insertTamDictionary] at h
    rw [Option.some_inj] at h
    subst h
    exact ⟨h1, h2, h3, h4, h5, h6, h7, h8, h9, h10, h11, h12, h13⟩
  | insTamSubmission ts =>
    simp only [apply, insertTamSubmission] at h
    split at h
    · rename_i hcond
      rw [Option.some_inj] at h
      subst h
      refine ⟨h1, h2, h3, h4, h5, h6, h7, h8, h9, h10, h11, ?_, h13⟩
      intro ts' hts'
      rcases List.mem_cons.mp hts' with htseq | htsm
      · subst htseq
        exact hcond
      · exact h12 ts' htsm
    · exact absurd h (by simp)
  | insSegmentFeedback f =>
    simp only [apply, insertSegmentFeedback] at h
    split at h
    · rename_i hcond
      rw [Option.some_inj] at h
      subst h
      refine ⟨h1, h2, h3, h4, h5, h6, h7, h8, h9, h10, h11, h12, ?_⟩
      intro f' hf'
      rcases List.mem_cons.mp hf' with hfeq | hfm
      · subst hfeq
        exact hcond
      · exact h13 f' hfm
    · exact absurd h (by simp)
  | delProject pid =>
    exact removeHier_wf db _ db'
      ⟨h1, h2, h3, h4, h5, h6, h7, h8, h9, h10, h11, h12, h13⟩ h
  | delChapter cid =>
    exact removeHier_wf db _ db'
      ⟨h1, h2, h3, h4, h5, h6, h7, h8, h9, h10, h11, h12, h13⟩ h
  | delSentence sid =>
    exact removeHier_wf db _ db'
      ⟨h1, h2, h3, h4, h5, h6, h7, h8, h9, h10, h11, h12, h13⟩ h
  | delSegment gid =>
    exact removeHier_wf db _ db'
      ⟨h1, h2, h3, h4, h5, h6, h7, h8, h9, h10, h11, h12, h13⟩ h
  | delUser uid =>
    exact deleteUser_wf db uid db'
      ⟨h1, h2, h3, h4, h5, h6, h7, h8, h9, h10, h11, h12, h13⟩ h
  | delUSR uid =>
    exact deleteUSR_wf db uid db'
      ⟨h1, h2, h3, h4, h5, h6, h7, h8, h9, h10, h11, h12, h13⟩ h
  | delAssignment aid =>
    simp only [apply, deleteAssignment] at h
    rw [Option.some_inj] at h
    subst h
    refine ⟨h1, h2, h3, h4, h5, h6, h7, h8, h9, ?_, h11, h12, h13⟩
    intro a ha
    exact h10 a (List.mem_filter.mp ha).1
  | delSegmentFeedback fid =>
    simp only [apply, deleteSegmentFeedback] at h
    rw [Option.some_inj] at h
    subst h
    refine ⟨h1, h2, h3, h4, h5, h6, h7, h8, h9, h10, h11, h12, ?_⟩
    intro f hf
    exact h13 f (List.mem_filter.mp hf).1
  | delConceptSubmission cid =>
    simp only [apply, deleteConceptSubmission] at h
    rw [Option.some_inj] at h
    subst h
    refine ⟨h1, h2, h3, h4, h5, h6, h7, h8, h9, h10, ?_, h12, h13⟩
    intro cs hcs
    exact h11 cs (List.mem_filter.mp hcs).1
  | delTamSubmission tid =>
    simp only [apply, deleteTamSubmission] at h
    rw [Option.some_inj] at h
    subst h
    refine ⟨h1, h2, h3, h4, h5, h6, h7, h8, h9, h10, h11, ?_, h13⟩
    intro ts hts
    exact h12 ts (List.mem_filter.mp hts).1

end Orig

namespace Opt

/-- Every schema operation of the optimized schema preserves referential
integrity. -/
theorem apply_wf_opt (db : DB) (o : Op) (db' : DB) (hwf : wellFormed db)
    (h : apply db o = some db') : wellFormed db' := by
  obtain ⟨h1, h2, h3, h4, h5, h6, h7, h8, h9, h10, h11, h12, h13⟩ := hwf
  cases o with
  | insUser w =>
    simp only [apply, insertUser] at h
    rw [Option.some_inj] at h
    subst h
    refine ⟨h1, h2, h3, ?_, h5, h6, h7, h8, h9, ?_, ?_, ?_, ?_⟩
    · intro u hu
      obtain ⟨hseg, hcr⟩ := h4 u hu
      exact ⟨hseg, fun i hi => exists_mem_cons (hcr i hi)⟩
    · intro a ha
      obtain ⟨hseg, hann, hrev⟩ := h10 a ha
      exact ⟨hseg, exists_mem_cons hann, fun i hi => exists_mem_cons (hrev i hi)⟩
    · intro cs hcs
      obtain ⟨hsub, hval⟩ := h11 cs hcs
      exact ⟨fun i hi => exists_mem_cons (hsub i hi),
        fun i hi => exists_mem_cons (hval i hi)⟩
    · intro ts hts
      obtain ⟨hsub, hval⟩ := h12 ts hts
      exact ⟨fun i hi => exists_mem_cons (hsub i hi),
        fun i hi => exists_mem_cons (hval i hi)⟩
    · intro f hf
      obtain ⟨hseg, hann⟩ := h13 f hf
      exact ⟨hseg, exists_mem_cons hann⟩
  | insProject p =>
    simp only [apply, insertProject] at h
    rw [Option.some_inj] at h
    subst h
    refine ⟨?_, h2, h3, h4, h5, h6, h7, h8, h9, h10, h11, h12, h13⟩
    intro c hc
    exact exists_mem_cons (h1 c hc)
  | insChapter c =>
    simp only [apply, insertChapter] at h
    split at h
    · rename_i hcond
      rw [Option.some_inj] at h
      subst h
      refine ⟨?_, ?_, h3, h4, h5, h6, h7, h8, h9, h10, h11, h12, h13⟩
      · intro c' hc'
        rcases List.mem_cons.mp hc' with hceq | hcm
        · subst hceq
          exact hcond
        · exact h1 c' hcm
      · intro s hs
        exact exists_mem_cons (h2 s hs)
    · exact absurd h (by simp)
  | insSentence s =>
    simp only [apply, insertSentence] at h
    split at h
    · rename_i hcond
      rw [Option.some_inj] at h
      subst h
      refine ⟨h1, ?_, ?_, h4, h5, h6, h7, h8, h9, h10, h11, h12, h13⟩
      · intro s' hs'
        rcases List.mem_cons.mp hs' with hseq | hsm
        · subst hseq
          exact hcond
        · exact h2 s' hsm
      · intro g hg
        exact exists_mem_cons (h3 g hg)
    · exact absurd h (by simp)
  | insSegment g =>
    simp only [apply, insertSegment] at h
    split at h
    · rename_i hcond
      rw [Option.some_inj] at h
      subst h
      refine ⟨h1, h2, ?_, ?_, h5, h6, h7, h8, h9, ?_, h11, h12, ?_⟩
      · intro g' hg'
        rcases List.mem_cons.mp hg' with hgeq | hgm
        · subst hgeq
          exact hcond
        · exact h3 g' hgm
      · intro u hu
        obtain ⟨hseg, hcr⟩ := h4 u hu
        exact ⟨exists_mem_cons hseg, hcr⟩
      · intro a ha
        obtain ⟨hseg, hann, hrev⟩ := h10 a ha
        exact ⟨exists_mem_cons hseg, hann, hrev⟩
      · intro f hf
        obtain ⟨hseg, hann⟩ := h13 f hf
        exact ⟨exists_mem_cons hseg, hann⟩
    · exact absurd h (by simp)
  | insUSR u =>
    simp only [apply, insertUSR] at h
    split at h
    · rename_i hcond
      rw [Option.some_inj] at h
      subst h
      refine ⟨h1, h2, h3, ?_, ?_, ?_, ?_, ?_, ?_, h10, h11, h12, h13⟩
      · intro u' hu'
        rcases List.mem_cons.mp hu' with hueq | hum
        · subst hueq
          exact hcond
        · exact h4 u' hum
      · intro x hx
        exact exists_mem_cons (h5 x hx)
      · intro x hx
        exact exists_mem_cons (h6 x hx)
      · intro x hx
        exact exists_mem_cons (h7 x hx)
      · intro x hx
        exact exists_mem_cons (h8 x hx)
      · intro x hx
        exact exists_mem_cons (h9 x hx)
    · exact absurd h (by simp)
  | insLexicalInfo x =>
    simp only [apply, insertLexicalInfo] at h
    split at h
    · rename_i hcond
      rw [Option.some_inj] at h
      subst h
      refine ⟨h1, h2, h3, h4, ?_, h6, h7, h8, h9, h10, h11, h12, h13⟩
      intro x' hx'
      rcases List.mem_cons.mp hx' with hxeq | hxm
      · subst hxeq
        exact hcond
      · exact h5 x' hxm
    · exact absurd h (by simp)
  | insDependencyInfo x =>
    simp only [apply, insertDependencyInfo] at h
    split at h
    · rename_i hcond
      rw [Option.some_inj] at h
      subst h
      refine ⟨h1, h2, h3, h4, h5, ?_, h7, h8, h9, h10, h11, h12, h13⟩
      intro x' hx'
      rcases List.mem_cons.mp hx' with hxeq | hxm
      · subst hxeq
        exact hcond
      · exact h6 x' hxm
    · exact absurd h (by simp)
  | insDiscourseCorefInfo x =>
    simp only [apply, insertDiscourseCorefInfo] at h
    split at h
    · rename_i hcond
      rw [Option.some_inj] at h
      subst h
      refine ⟨h1, h2, h3, h4, h5, h6, ?_, h8, h9, h10, h11, h12, h13⟩
      intro x' hx'
      rcases List.mem_cons.mp hx' with hxeq | hxm
      · subst hxeq
        exact hcond
      · exact h7 x' hxm
    · exact absurd h (by simp)
  | insConstructionInfo x =>
    simp only [apply, insertConstructionInfo] at h
    split at h
    · rename_i hcond
      rw [Option.some_inj] at h
      subst h
      refine ⟨h1, h2, h3, h4, h5, h6, h7, ?_, h9, h10, h11, h12, h13⟩
      intro x' hx'
      rcases List.mem_cons.mp hx' with hxeq | hxm
      · subst hxeq
        exact hcond
      · exact h8 x' hxm
    · exact absurd h (by simp)
  | insSentenceTypeInfo x =>
    simp only [apply, insertSentenceTypeInfo] at h
    split at h
    · rename_i hcond
      rw [Option.some_inj] at h
      subst h
      refine ⟨h1, h2, h3, h4, h5, h6, h7, h8, ?_, h10, h11, h12, h13⟩
      intro x' hx'
      rcases List.mem_cons.mp hx' with hxeq | hxm
      · subst hxeq
        exact hcond
      · exact h9 x' hxm
    · exact absurd h (by simp)
  | insAssignment a =>
    simp only [apply, insertAssignment] at h
    split at h
    · rename_i hcond
      rw [Option.some_inj] at h
      subst h
      refine ⟨h1, h2, h3, h4, h5, h6, h7, h8, h9, ?_, h11, h12, h13⟩
      intro a' ha'
      rcases List.mem_cons.mp ha' with haeq | ham
      · subst haeq
        exact hcond
      · exact h10 a' ham
    · exact absurd h (by simp)
  | insConcept c =>
    simp only [apply, insertConcept] at h
    rw [Option.some_inj] at h
    subst h
    exact ⟨h1, h2, h3, h4, h5, h6, h7, h8, h9, h10, h11, h12, h13⟩
  | insConceptSubmission cs =>
    simp only [apply, insertConceptSubmission] at h
    split at h
    · rename_i hcond
      rw [Option.some_inj] at h
      subst h
      refine ⟨h1, h2, h3, h4, h5, h6, h7, h8, h9, h10, ?_, h12, h13⟩
      intro cs' hcs'
      rcases List.mem_cons.mp hcs' with hcseq | hcsm
      · subst hcseq
        exact hcond
      · exact h11 cs' hcsm
    · exact absurd h (by simp)
  | insTamDictionary t =>
    simp only [apply, insertTamDictionary] at h
    rw [Option.some_inj] at h
    subst h
    exact ⟨h1, h2, h3, h4, h5, h6, h7, h8, h9, h10, h11, h12, h13⟩
  | insTamSubmission ts =>
    simp only [apply, insertTamSubmission] at h
    split at h
    · rename_i hcond
      rw [Option.some_inj] at h
      subst h
      refine ⟨h1, h2, h3, h4, h5, h6, h7, h8, h9, h10, h11, ?_, h13⟩
      intro ts' hts'
      rcases List.mem_cons.mp hts' with htseq | htsm
      · subst htseq
        exact hcond
      · exact h12 ts' htsm
    · exact absurd h (by simp)
  | insSegmentFeedback f =>
    simp only [apply, insertSegmentFeedback] at h
    split at h
    · rename_i hcond
      rw [Option.some_inj] at h
      subst h
      refine ⟨h1, h2, h3, h4, h5, h6, h7, h8, h9, h10, h11, h12, ?_⟩
      intro f' hf'
      rcases List.mem_cons.mp hf' with hfeq | hfm
      · subst hfeq
        exact hcond
      · exact h13 f' hfm
    · exact absurd h (by simp)
  | delProject pid =>
    exact removeHier_wf_opt db _ db'
      ⟨h1, h2, h3, h4, h5, h6, h7, h8, h9, h10, h11, h12, h13⟩ h
  | delChapter cid =>
    exact removeHier_wf_opt db _ db'
      ⟨h1, h2, h3, h4, h5, h6, h7, h8, h9, h10, h11, h12, h13⟩ h
  | delSentence sid =>
    exact removeHier_wf_opt db _ db'
      ⟨h1, h2, h3, h4, h5, h6, h7, h8, h9, h10, h11, h12, h13⟩ h
  | delSegment gid =>
    exact removeHier_wf_opt db _ db'
      ⟨h1, h2, h3, h4, h5, h6, h7, h8, h9, h10, h11, h12, h13⟩ h
  | delUser uid =>
    exact deleteUser_wf_opt db uid db'
      ⟨h1, h2, h3, h4, h5, h6, h7, h8, h9, h10, h11, h12, h13⟩ h
  | delUSR uid =>
    exact deleteUSR_wf_opt db uid db'
      ⟨h1, h2, h3, h4, h5, h6, h7, h8, h9, h10, h11, h12, h13⟩ h
  | delAssignment aid =>
    simp only [apply, deleteAssignment] at h
    rw [Option.some_inj] at h
    subst h
    refine ⟨h1, h2, h3, h4, h5, h6, h7, h8, h9, ?_, h11, h12, h13⟩
    intro a ha
    exact h10 a (List.mem_filter.mp ha).1
  | delSegmentFeedback fid =>
    simp only [apply, deleteSegmentFeedback] at h
    rw [Option.some_inj] at h
    subst h
    refine ⟨h1, h2, h3, h4, h5, h6, h7, h8, h9, h10, h11, h12, ?_⟩
    intro f hf
    exact h13 f (List.mem_filter.mp hf).1
  | delConceptSubmission cid =>
    simp only [apply, deleteConceptSubmission] at h
    rw [Option.some_inj] at h
    subst h
    refine ⟨h1, h2, h3, h4, h5, h6, h7, h8, h9, h10, ?_, h12, h13⟩
    intro cs hcs
    exact h11 cs (List.mem_filter.mp hcs).1
  | delTamSubmission tid =>
    simp only [apply, deleteTamSubmission] at h
    rw [Option.some_inj] at h
    subst h
    refine ⟨h1, h2, h3, h4, h5, h6, h7, h8, h9, h10, h11, ?_, h13⟩
    intro ts hts
    exact h12 ts (List.mem_filter.mp hts).1

end Opt

namespace Orig

/-- Running any operation list preserves referential integrity. -/
theorem run_wf (ops : List Op) : ∀ db db' : DB,
    wellFormed db → run db ops = some db' → wellFormed db' := by
  induction ops with
  | nil =>
    intro db db' hwf h
    simp only [run] at h
    rw [Option.some_inj] at h
    subst h
    exact hwf
  | cons o os ih =>
    intro db db' hwf h
    simp only [run] at h
    cases happ : apply db o with
    | none =>
      rw [happ] at h
      exact Option.noConfusion h
    | some db1 =>
      rw [happ] at h
      exact ih db1 db' (apply_wf db o db1 hwf happ) h

end Orig

namespace Opt

/-- Running any operation list preserves referential integrity. -/
theorem run_wf_opt (ops : List Op) : ∀ db db' : DB,
    wellFormed db → run db ops = some db' → wellFormed db' := by
  induction ops with
  | nil =>
    intro db db' hwf h
    simp only [run] at h
    rw [Option.some_inj] at h
    subst h
    exact hwf
  | cons o os ih =>
    intro db db' hwf h
    simp only [run] at h
    cases happ : apply db o with
    | none =>
      rw [happ] at h
      exact Option.noConfusion h
    | some db1 =>
      rw [happ] at h
      exact ih db1 db' (apply_wf_opt db o db1 hwf happ) h

end Opt

/-- C6: referential integrity is an invariant of the declared schema
operations — in every state reachable from the empty database by
foreign-key-guarded inserts and cascade-respecting deletes, every non-null
foreign key of every row references an existing parent row, in both schema
versions. -/
theorem claim_C6_referential_integrity :
    (∀ db : Orig.DB, Orig.Reachable db → Orig.wellFormed db) ∧
    (∀ db : Opt.DB, Opt.Reachable db → Opt.wellFormed db) := by
  constructor
  · rintro db ⟨ops, hops⟩
    exact Orig.run_wf ops Orig.emptyDB db (by decide) hops
  · rintro db ⟨ops, hops⟩
    exact Opt.run_wf_opt ops Opt.emptyDB db (by decide) hops

/-- C6 (witness): the concrete one-project states are reachable by explicit
insert sequences, hence well-formed. -/
theorem claim_C6_witness : Orig.wellFormed c1OrigDB ∧ Opt.wellFormed c1OptDB := by
  constructor
  · exact claim_C6_referential_integrity.1 c1OrigDB
      ⟨[Orig.Op.insUser (fxOUser 1), Orig.Op.insProject (fxOProject 1),
        Orig.Op.insChapter (fxOChapter 1 1), Orig.Op.insSentence (fxOSentence 1 1),
        Orig.Op.insSegment (fxOSegment 1 1),
        Orig.Op.insUSR (fxOUSR 1 1 (some "Pending") (some 1)),
        Orig.Op.insLexicalInfo (fxOLex 1 1 1), Orig.Op.insDependencyInfo (fxODep 1 1 1),
        Orig.Op.insSentenceTypeInfo (fxOSti 1 1 1)], by decide⟩
  · exact claim_C6_referential_integrity.2 c1OptDB
      ⟨[Opt.Op.insUser (fxPUser 1), Opt.Op.insProject (fxPProject 1),
        Opt.Op.insChapter (fxPChapter 1 1), Opt.Op.insSentence (fxPSentence 1 1),
        Opt.Op.insSegment (fxPSegment 1 1),
        Opt.Op.insUSR (fxPUSR 1 1 (some .Pending) (some 1)),
        Opt.Op.insLexicalInfo (fxPLex 1 1),
        Opt.Op.insSentenceTypeInfo (fxPSti 1 1)], by decide⟩
